import Mathlib

/-! # GoHighLevel MCP server: request client and tool-call surface

A shallow embedding of `src/index.js` (class `GoHighLevelMCPClient`, the
command-line function `main`) and of
`src/mcp-server.js` (tool catalog, `list_tools` and `call_tool` handlers).

Modelling conventions.

* JavaScript values are the type `JsVal`.  A number is represented by the
  string `Number.prototype.toString` gives it (`"5"`, `"0.5"`, `"1e+21"`,
  `"NaN"`, `"Infinity"`): the program applies only ToString, ToBoolean and
  `JSON.stringify` to a number, and each is a function of that string.  An
  object is the list of its own enumerable properties in property order; no
  value is a function.
* A thrown error is its message.
* An `async` method that awaits at most one `axios` call is a function that
  returns its resolved value, or the error it rejects with, together with the
  list of `axios` configurations it issued (the outbound HTTP calls, in order).
* `axios` is an external library.  Its behaviour is a function of an
  `Upstream`, which says for each request configuration whether a response was
  received (status and parsed body) or the transport failed with a message.
  `axios` resolves on a status in `[200, 300)` (its default `validateStatus`)
  and rejects otherwise.
* Console output (`this.log`, `console.log`) is not modelled.
-/

set_option autoImplicit false

namespace GHL

/-! ## JavaScript values -/

/-- A JavaScript value. -/
inductive JsVal where
  | undefined
  | null
  | bool (b : Bool)
  | num (repr : String)
  | str (s : String)
  | arr (xs : List JsVal)
  | obj (fields : List (String × JsVal))

/-- The own enumerable properties of an object, in property order. -/
abbrev Fields := List (String × JsVal)

namespace JsVal

/-- ToBoolean: `undefined`, `null`, `false`, `0` (also `-0`, which prints as
`0`), `NaN` and `''` are falsy. -/
def truthy : JsVal → Bool
  | undefined => false
  | null => false
  | bool b => b
  | num repr => repr != "0" && repr != "NaN"
  | str s => s != ""
  | arr _ => true
  | obj _ => true

/-- The operator `a || b`. -/
def or (a b : JsVal) : JsVal := if a.truthy then a else b

/-- The function `Array.isArray`. -/
def isArray : JsVal → Bool
  | arr _ => true
  | _ => false

/-- The message of the TypeError of ToPrimitive. -/
def cannotConvert : String := "Cannot convert object to primitive value"

/-- Whether a value is `undefined` or `null`. -/
def isNullish : JsVal → Bool
  | undefined => true
  | null => true
  | _ => false

mutual
/-- ToString, as applied by a template literal `${v}`; an `error` is a thrown
TypeError.  An object is converted by `Object.prototype.toString`, unless it
has an own property `toString`: that property is not callable, neither it nor
`valueOf` yields a primitive, and the conversion throws.  An array is
converted by `join` with the separator `,`. -/
def toStr : JsVal → Except String String
  | undefined => .ok "undefined"
  | null => .ok "null"
  | bool b => .ok (if b then "true" else "false")
  | num repr => .ok repr
  | str s => .ok s
  | arr xs =>
    match joinParts xs with
    | .error e => .error e
    | .ok parts => .ok (String.intercalate "," parts)
  | obj fs =>
    if fs.any (fun kv => kv.1 == "toString") then .error cannotConvert
    else .ok "[object Object]"
termination_by structural v => v
/-- The strings `Array.prototype.join` puts between the separators, from left
to right: the empty string for an `undefined` or `null` element, ToString of
the element otherwise (ToString of `undefined` and `null` does not throw, so
converting first and discarding is the same). -/
def joinParts : List JsVal → Except String (List String)
  | [] => .ok []
  | x :: rest =>
    match toStr x with
    | .error e => .error e
    | .ok text =>
      match joinParts rest with
      | .error e => .error e
      | .ok parts => .ok ((if x.isNullish then "" else text) :: parts)
termination_by structural l => l
end

mutual
/-- The values ToString can convert, stated on the value: every value except
an object with an own property `toString` and an array that has an element
which cannot be converted. -/
def convertible : JsVal → Bool
  | arr xs => allConvertible xs
  | obj fs => !fs.any (fun kv => kv.1 == "toString")
  | _ => true
termination_by structural v => v
/-- Every element of the list can be converted. -/
def allConvertible : List JsVal → Bool
  | [] => true
  | x :: rest => convertible x && allConvertible rest
termination_by structural l => l
end

end JsVal

/-- Property read `o.key` on an object: `undefined` when the key is absent. -/
def Fields.get (fs : Fields) (key : String) : JsVal :=
  (fs.lookup key).getD JsVal.undefined

/-! ## `JSON.stringify(value, null, 2)` -/

/-- One hexadecimal digit, lower case. -/
def hexLower (n : Nat) : Char :=
  "0123456789abcdef".toList.getD n '0'

/-- One hexadecimal digit, upper case. -/
def hexUpper (n : Nat) : Char :=
  "0123456789ABCDEF".toList.getD n '0'

/-- The escape of one character inside a JSON string (QuoteJSONString). -/
def quoteJSONChar (c : Char) : String :=
  if c = '\x08' then "\\b"
  else if c = '\t' then "\\t"
  else if c = '\n' then "\\n"
  else if c = '\x0c' then "\\f"
  else if c = '\r' then "\\r"
  else if c = '"' then "\\\""
  else if c = '\\' then "\\\\"
  else if c.toNat < 32 then
    "\\u00" ++ String.mk [hexLower (c.toNat / 16), hexLower (c.toNat % 16)]
  else String.singleton c

/-- QuoteJSONString. -/
def quoteJSONString (s : String) : String :=
  "\"" ++ String.join (s.toList.map quoteJSONChar) ++ "\""

/-- The gap of `JSON.stringify(_, null, 2)`: two spaces. -/
def gap : String := "  "

mutual
/-- SerializeJSONProperty at the given current indentation; `none` is the
JavaScript `undefined` (the property is left out). -/
def serializeJSONProperty (indent : String) : JsVal → Option String
  | .undefined => none
  | .null => some "null"
  | .bool b => some (if b then "true" else "false")
  | .num repr =>
    some (if repr = "NaN" ∨ repr = "Infinity" ∨ repr = "-Infinity" then "null" else repr)
  | .str s => some (quoteJSONString s)
  | .arr xs =>
    some (match serializeJSONElements (indent ++ gap) xs with
      | [] => "[]"
      | parts => "[\n" ++ indent ++ gap ++
          String.intercalate (",\n" ++ indent ++ gap) parts ++ "\n" ++ indent ++ "]")
  | .obj fs =>
    some (match serializeJSONMembers (indent ++ gap) fs with
      | [] => "\x7b\x7d"
      | parts => "\x7b\n" ++ indent ++ gap ++
          String.intercalate (",\n" ++ indent ++ gap) parts ++ "\n" ++ indent ++ "\x7d")
termination_by structural v => v
/-- The elements of an array: an `undefined` element is written `null`. -/
def serializeJSONElements (indent : String) : List JsVal → List String
  | [] => []
  | x :: rest =>
    (serializeJSONProperty indent x).getD "null" :: serializeJSONElements indent rest
termination_by structural l => l
/-- The members of an object: a property whose value is `undefined` is left
out. -/
def serializeJSONMembers (indent : String) : List (String × JsVal) → List String
  | [] => []
  | kv :: rest =>
    match serializeJSONMember indent kv with
    | none => serializeJSONMembers indent rest
    | some m => m :: serializeJSONMembers indent rest
termination_by structural l => l
/-- One member `"key": value`. -/
def serializeJSONMember (indent : String) : String × JsVal → Option String
  | (k, v) =>
    match serializeJSONProperty indent v with
    | none => none
    | some s => some (quoteJSONString k ++ ": " ++ s)
termination_by structural kv => kv
end

/-- The call `JSON.stringify(value, null, 2)`; `none` is `undefined`. -/
def jsonStringify (value : JsVal) : Option String :=
  serializeJSONProperty "" value

/-! ## `new URLSearchParams(params).toString()` -/

/-- The UTF-8 bytes of a code point. -/
def utf8Bytes (c : Nat) : List Nat :=
  if c < 0x80 then [c]
  else if c < 0x800 then [0xC0 + c / 64, 0x80 + c % 64]
  else if c < 0x10000 then [0xE0 + c / 4096, 0x80 + c / 64 % 64, 0x80 + c % 64]
  else [0xF0 + c / 262144, 0x80 + c / 4096 % 64, 0x80 + c / 64 % 64, 0x80 + c % 64]

/-- The application/x-www-form-urlencoded serialisation of one character:
ASCII letters and digits and `*`, `-`, `.`, `_` stay, a space becomes `+`, and
every other byte is percent-encoded. -/
def urlencodeChar (c : Char) : String :=
  if c.isAlphanum || c = '*' || c = '-' || c = '.' || c = '_' then String.singleton c
  else if c = ' ' then "+"
  else String.join ((utf8Bytes c.toNat).map fun b =>
    String.mk ['%', hexUpper (b / 16), hexUpper (b % 16)])

/-- The application/x-www-form-urlencoded serialisation of a string. -/
def urlencode (s : String) : String :=
  String.join (s.toList.map urlencodeChar)

/-- The list of name-value pairs of `new URLSearchParams(params)` for a mapping
`params`: the value of every property is converted with ToString, in property
order; a conversion that throws makes the constructor throw. -/
def searchParamsList : Fields → Except String (List (String × String))
  | [] => .ok []
  | kv :: rest =>
    match kv.2.toStr with
    | .error e => .error e
    | .ok value =>
      match searchParamsList rest with
      | .error e => .error e
      | .ok pairs => .ok ((kv.1, value) :: pairs)

/-- The expression `new URLSearchParams(params).toString()` for a mapping
`params`: every pair becomes `name=value`, both serialised, the pairs joined
with `&`. -/
def urlSearchParams (params : Fields) : Except String String :=
  match searchParamsList params with
  | .error e => .error e
  | .ok pairs =>
    .ok (String.intercalate "&" (pairs.map fun kv => urlencode kv.1 ++ "=" ++ urlencode kv.2))

/-! ## The request client (`src/index.js`) -/

/-- The environment variables read by the constructor (`process.env`, after
`dotenv.config()`); `none` is an unset variable. -/
structure Env where
  GHL_PRIVATE_INTEGRATION_TOKEN : Option String
  GHL_LOCATION_ID : Option String
  GHL_MCP_URL : Option String
  DEBUG : Option String

/-- Truthiness of an environment value: set and not the empty string. -/
def envTruthy : Option String → Bool
  | none => false
  | some s => s != ""

/-- An environment value as a JavaScript value. -/
def envVal : Option String → JsVal
  | none => JsVal.undefined
  | some s => JsVal.str s

/-- The fields of a `GoHighLevelMCPClient` instance. -/
structure GoHighLevelMCPClient where
  token : String
  locationId : Option String
  mcpUrl : String
  debug : Bool
  headers : List (String × String)

/-- The constructor of `GoHighLevelMCPClient`: throws when the token is falsy,
adds the `locationId` header only for a truthy location identifier. -/
def GoHighLevelMCPClient.new (env : Env) : Except String GoHighLevelMCPClient :=
  let token := env.GHL_PRIVATE_INTEGRATION_TOKEN
  let locationId := env.GHL_LOCATION_ID
  let mcpUrl :=
    if envTruthy env.GHL_MCP_URL then env.GHL_MCP_URL.getD ""
    else "https://services.leadconnectorhq.com/mcp/"
  let debug := env.DEBUG == some "true"
  if !envTruthy token then
    .error "GHL_PRIVATE_INTEGRATION_TOKEN is required. Please check your .env file."
  else
    let headers : List (String × String) :=
      [("Authorization", "Bearer " ++ token.getD ""),
       ("Content-Type", "application/json"),
       ("Accept", "application/json")]
    .ok {
      token := token.getD ""
      locationId := locationId
      mcpUrl := mcpUrl
      debug := debug
      headers := if envTruthy locationId then headers ++ [("locationId", locationId.getD "")]
                 else headers }

/-- The configuration object passed to `axios`; `data` is present only when
`makeRequest` attached it. -/
structure AxiosConfig where
  method : String
  url : String
  headers : List (String × String)
  timeout : Nat
  data : Option JsVal

/-- What the upstream did with one request: it answered with a status code and
a (parsed) body, or no response was received and the transport failed with a
message (connection refused, timeout). -/
inductive Reply where
  | response (status : Nat) (data : JsVal)
  | failure (message : String)

/-- The upstream, as seen through the network. -/
abbrev Upstream := AxiosConfig → Reply

/-- The `response` object of axios. -/
structure AxiosResponse where
  status : Nat
  data : JsVal

/-- The error axios rejects with: `error.message` and the optional
`error.response`. -/
structure AxiosError where
  message : String
  response : Option AxiosResponse

/-- The call `await axios(config)`: one request to the upstream.  A response
whose status is in `[200, 300)` resolves; any other response rejects with the
response attached; a transport failure rejects with no response. -/
def axios (up : Upstream) (config : AxiosConfig) : Except AxiosError AxiosResponse :=
  match up config with
  | .response status data =>
    if 200 ≤ status ∧ status < 300 then .ok { status := status, data := data }
    else .error { message := "Request failed with status code " ++ toString status,
                  response := some { status := status, data := data } }
  | .failure message => .error { message := message, response := none }

/-- The object returned by a client operation.  A field that is `none` is a
key the object literal does not have. -/
structure Result where
  success : Bool
  data : Option JsVal := none
  error : Option JsVal := none
  status : Option Nat := none

/-- The Result as a JavaScript object, keys in the order of the object
literals of the source: `success`, `data` or `error`, `status`. -/
def Result.toJs (r : Result) : JsVal :=
  .obj ([("success", JsVal.bool r.success)]
    ++ (match r.data with | some d => [("data", d)] | none => [])
    ++ (match r.error with | some e => [("error", e)] | none => [])
    ++ (match r.status with | some s => [("status", JsVal.num (toString s))] | none => []))

/-- How a client operation settles, and the axios calls it issued: it resolves
to a Result (`ok`) or it rejects with a thrown error (`error`). -/
abbrev Outcome := Except String Result × List AxiosConfig

/-- The object literal `{ success: false, error: message }` of a validation
failure, returned without any call. -/
def validationFailure (message : String) : Outcome :=
  (.ok { success := false, error := some (.str message) }, [])

/-- An error thrown before any call was issued. -/
def thrown (message : String) : Outcome :=
  (.error message, [])

/-- The `config` object built by `makeRequest`: `data` is attached only when
truthy. -/
def requestConfig (c : GoHighLevelMCPClient) (method endpoint : String) (data : JsVal) :
    AxiosConfig :=
  { method := method
    url := c.mcpUrl ++ endpoint
    headers := c.headers
    timeout := 30000
    data := if data.truthy then some data else none }

/-- The method `makeRequest(method, endpoint, data = null)`; a caller that
passes no `data` passes `null`. -/
def makeRequest (c : GoHighLevelMCPClient) (up : Upstream)
    (method endpoint : String) (data : JsVal) : Outcome :=
  let config := requestConfig c method endpoint data
  match axios up config with
  | .ok response =>
    (.ok { success := true, data := some response.data, status := some response.status },
     [config])
  | .error error =>
    (.ok { success := false
           error := some (JsVal.or
             (match error.response with | some r => r.data | none => .undefined)
             (.str error.message))
           status := some (match error.response with
             | some r => if r.status != 0 then r.status else 500
             | none => 500) }, [config])

/-- The endpoint of a list operation: `name` alone when the query string is
empty, `name?queryString` otherwise.  An omitted `params` is the default
`\x7b\x7d`.  Building the query string may throw. -/
def listEndpoint (name : String) (params : Option Fields) : Except String String :=
  match urlSearchParams (params.getD []) with
  | .error e => .error e
  | .ok queryString => .ok (if queryString != "" then name ++ "?" ++ queryString else name)

/-- The template literal `prefix${value}` of an endpoint; the conversion of the
value may throw. -/
def endpointOf (pre : String) (value : JsVal) : Except String String :=
  match value.toStr with
  | .error e => .error e
  | .ok text => .ok (pre ++ text)

/-- The call `this.makeRequest(method, endpoint, data)` where the endpoint is
an expression: the argument is evaluated first, and when that throws the
method rejects without calling `makeRequest`. -/
def requestAt (c : GoHighLevelMCPClient) (up : Upstream) (method : String)
    (endpoint : Except String String) (data : JsVal) : Outcome :=
  match endpoint with
  | .error e => thrown e
  | .ok path => makeRequest c up method path data

namespace GoHighLevelMCPClient

variable (c : GoHighLevelMCPClient) (up : Upstream)

/-- The method `getContacts(params = \x7b\x7d)`. -/
def getContacts (params : Option Fields) : Outcome :=
  requestAt c up "GET" (listEndpoint "contacts_get-contacts" params) .null

/-- The method `getContact(contactId)`. -/
def getContact (contactId : JsVal) : Outcome :=
  if !contactId.truthy then validationFailure "Contact ID is required"
  else requestAt c up "GET" (endpointOf "contacts_get-contact?contactId=" contactId) .null

/-- The method `createContact(contactData)`. -/
def createContact (contactData : JsVal) : Outcome :=
  if !contactData.truthy then validationFailure "Contact data is required"
  else makeRequest c up "POST" "contacts_create-contact" contactData

/-- The method `updateContact(contactId, contactData)`. -/
def updateContact (contactId contactData : JsVal) : Outcome :=
  if !contactId.truthy || !contactData.truthy then
    validationFailure "Contact ID and data are required"
  else requestAt c up "PUT" (endpointOf "contacts_update-contact?contactId=" contactId)
    contactData

/-- The method `upsertContact(contactData)`. -/
def upsertContact (contactData : JsVal) : Outcome :=
  if !contactData.truthy then validationFailure "Contact data is required"
  else makeRequest c up "POST" "contacts_upsert-contact" contactData

/-- The method `addTagsToContact(contactId, tags)`. -/
def addTagsToContact (contactId tags : JsVal) : Outcome :=
  if !contactId.truthy || !tags.truthy || !tags.isArray then
    validationFailure "Contact ID and tags array are required"
  else requestAt c up "POST" (endpointOf "contacts_add-tags?contactId=" contactId)
    (.obj [("tags", tags)])

/-- The method `removeTagsFromContact(contactId, tags)`. -/
def removeTagsFromContact (contactId tags : JsVal) : Outcome :=
  if !contactId.truthy || !tags.truthy || !tags.isArray then
    validationFailure "Contact ID and tags array are required"
  else requestAt c up "DELETE" (endpointOf "contacts_remove-tags?contactId=" contactId)
    (.obj [("tags", tags)])

/-- The method `searchConversations(params = \x7b\x7d)`. -/
def searchConversations (params : Option Fields) : Outcome :=
  requestAt c up "GET" (listEndpoint "conversations_search-conversation" params) .null

/-- The method `getMessages(conversationId)`. -/
def getMessages (conversationId : JsVal) : Outcome :=
  if !conversationId.truthy then validationFailure "Conversation ID is required"
  else requestAt c up "GET"
    (endpointOf "conversations_get-messages?conversationId=" conversationId) .null

/-- The method `sendMessage(conversationId, message)`. -/
def sendMessage (conversationId message : JsVal) : Outcome :=
  if !conversationId.truthy || !message.truthy then
    validationFailure "Conversation ID and message are required"
  else requestAt c up "POST"
    (endpointOf "conversations_send-a-new-message?conversationId=" conversationId)
    (.obj [("message", message)])

/-- The method `getCalendarEvents(params = \x7b\x7d)`. -/
def getCalendarEvents (params : Option Fields) : Outcome :=
  requestAt c up "GET" (listEndpoint "calendars_get-calendar-events" params) .null

/-- The method `getAppointmentNotes(appointmentId)`. -/
def getAppointmentNotes (appointmentId : JsVal) : Outcome :=
  if !appointmentId.truthy then validationFailure "Appointment ID is required"
  else requestAt c up "GET"
    (endpointOf "calendars_get-appointment-notes?appointmentId=" appointmentId) .null

/-- The method `searchOpportunities(params = \x7b\x7d)`. -/
def searchOpportunities (params : Option Fields) : Outcome :=
  requestAt c up "GET" (listEndpoint "opportunities_search-opportunity" params) .null

/-- The method `getOpportunity(opportunityId)`. -/
def getOpportunity (opportunityId : JsVal) : Outcome :=
  if !opportunityId.truthy then validationFailure "Opportunity ID is required"
  else requestAt c up "GET"
    (endpointOf "opportunities_get-opportunity?opportunityId=" opportunityId) .null

/-- The method `updateOpportunity(opportunityId, opportunityData)`. -/
def updateOpportunity (opportunityId opportunityData : JsVal) : Outcome :=
  if !opportunityId.truthy || !opportunityData.truthy then
    validationFailure "Opportunity ID and data are required"
  else requestAt c up "PUT"
    (endpointOf "opportunities_update-opportunity?opportunityId=" opportunityId) opportunityData

/-- The method `getPipelines()`. -/
def getPipelines : Outcome :=
  makeRequest c up "GET" "opportunities_get-pipelines" .null

/-- The method `getOrderById(orderId)`. -/
def getOrderById (orderId : JsVal) : Outcome :=
  if !orderId.truthy then validationFailure "Order ID is required"
  else requestAt c up "GET" (endpointOf "payments_get-order-by-id?orderId=" orderId) .null

/-- The method `listTransactions(params = \x7b\x7d)`. -/
def listTransactions (params : Option Fields) : Outcome :=
  requestAt c up "GET" (listEndpoint "payments_list-transactions" params) .null

/-- The method `getLocation(locationId = null)`; an omitted argument is
`undefined`, which the default turns into `null`. -/
def getLocation (locationId : JsVal) : Outcome :=
  let id := JsVal.or locationId (envVal c.locationId)
  if !id.truthy then validationFailure "Location ID is required"
  else requestAt c up "GET" (endpointOf "locations_get-location?locationId=" id) .null

/-- The method `getCustomFields(locationId = null)`. -/
def getCustomFields (locationId : JsVal) : Outcome :=
  let id := JsVal.or locationId (envVal c.locationId)
  if !id.truthy then validationFailure "Location ID is required"
  else requestAt c up "GET" (endpointOf "locations_get-custom-fields?locationId=" id) .null

/-- The method `getAllTasks(contactId)`. -/
def getAllTasks (contactId : JsVal) : Outcome :=
  if !contactId.truthy then validationFailure "Contact ID is required"
  else requestAt c up "GET" (endpointOf "contacts_get-all-tasks?contactId=" contactId) .null

/-- The method `testConnection()`: the result of `getLocation()`. -/
def testConnection : Outcome :=
  getLocation c up .undefined

/-- The method `getAvailableTools()`: a fixed list, no request. -/
def getAvailableTools : Outcome :=
  (.ok { success := true
         data := some (.obj [("tools", .arr ([
       "contacts_get-contacts",
       "contacts_get-contact",
       "contacts_create-contact",
       "contacts_update-contact",
       "contacts_upsert-contact",
       "contacts_add-tags",
       "contacts_remove-tags",
       "contacts_get-all-tasks",
       "conversations_search-conversation",
       "conversations_get-messages",
       "conversations_send-a-new-message",
       "calendars_get-calendar-events",
       "calendars_get-appointment-notes",
       "opportunities_search-opportunity",
       "opportunities_get-opportunity",
       "opportunities_update-opportunity",
       "opportunities_get-pipelines",
       "payments_get-order-by-id",
       "payments_list-transactions",
       "locations_get-location",
       "locations_get-custom-fields"].map JsVal.str))]) }, [])

end GoHighLevelMCPClient

/-- A call of one client method, with its arguments. -/
inductive ClientCall where
  | getContacts (params : Option Fields)
  | getContact (contactId : JsVal)
  | createContact (contactData : JsVal)
  | updateContact (contactId contactData : JsVal)
  | upsertContact (contactData : JsVal)
  | addTagsToContact (contactId tags : JsVal)
  | removeTagsFromContact (contactId tags : JsVal)
  | searchConversations (params : Option Fields)
  | getMessages (conversationId : JsVal)
  | sendMessage (conversationId message : JsVal)
  | getCalendarEvents (params : Option Fields)
  | getAppointmentNotes (appointmentId : JsVal)
  | searchOpportunities (params : Option Fields)
  | getOpportunity (opportunityId : JsVal)
  | updateOpportunity (opportunityId opportunityData : JsVal)
  | getPipelines
  | getOrderById (orderId : JsVal)
  | listTransactions (params : Option Fields)
  | getLocation (locationId : JsVal)
  | getCustomFields (locationId : JsVal)
  | getAllTasks (contactId : JsVal)
  | testConnection
  | getAvailableTools

/-- Performing a call on a client instance against an upstream. -/
def ClientCall.run (c : GoHighLevelMCPClient) (up : Upstream) : ClientCall → Outcome
  | .getContacts params => c.getContacts up params
  | .getContact contactId => c.getContact up contactId
  | .createContact contactData => c.createContact up contactData
  | .updateContact contactId contactData => c.updateContact up contactId contactData
  | .upsertContact contactData => c.upsertContact up contactData
  | .addTagsToContact contactId tags => c.addTagsToContact up contactId tags
  | .removeTagsFromContact contactId tags => c.removeTagsFromContact up contactId tags
  | .searchConversations params => c.searchConversations up params
  | .getMessages conversationId => c.getMessages up conversationId
  | .sendMessage conversationId message => c.sendMessage up conversationId message
  | .getCalendarEvents params => c.getCalendarEvents up params
  | .getAppointmentNotes appointmentId => c.getAppointmentNotes up appointmentId
  | .searchOpportunities params => c.searchOpportunities up params
  | .getOpportunity opportunityId => c.getOpportunity up opportunityId
  | .updateOpportunity opportunityId opportunityData =>
    c.updateOpportunity up opportunityId opportunityData
  | .getPipelines => c.getPipelines up
  | .getOrderById orderId => c.getOrderById up orderId
  | .listTransactions params => c.listTransactions up params
  | .getLocation locationId => c.getLocation up locationId
  | .getCustomFields locationId => c.getCustomFields up locationId
  | .getAllTasks contactId => c.getAllTasks up contactId
  | .testConnection => c.testConnection up
  | .getAvailableTools => GoHighLevelMCPClient.getAvailableTools

/-- The validation of the specification, stated on the arguments: every
required identifier or body is non-empty (truthy) and `tags` is an array; an
operation without required arguments has nothing to validate and passes.  For
`getLocation`, `getCustomFields` and `testConnection` the identifier is the
argument or else the configured location. -/
def inputsPassValidation (c : GoHighLevelMCPClient) : ClientCall → Bool
  | .getContacts _ => true
  | .getContact contactId => contactId.truthy
  | .createContact contactData => contactData.truthy
  | .updateContact contactId contactData => contactId.truthy && contactData.truthy
  | .upsertContact contactData => contactData.truthy
  | .addTagsToContact contactId tags => contactId.truthy && tags.truthy && tags.isArray
  | .removeTagsFromContact contactId tags => contactId.truthy && tags.truthy && tags.isArray
  | .searchConversations _ => true
  | .getMessages conversationId => conversationId.truthy
  | .sendMessage conversationId message => conversationId.truthy && message.truthy
  | .getCalendarEvents _ => true
  | .getAppointmentNotes appointmentId => appointmentId.truthy
  | .searchOpportunities _ => true
  | .getOpportunity opportunityId => opportunityId.truthy
  | .updateOpportunity opportunityId opportunityData =>
    opportunityId.truthy && opportunityData.truthy
  | .getPipelines => true
  | .getOrderById orderId => orderId.truthy
  | .listTransactions _ => true
  | .getLocation locationId => locationId.truthy || envTruthy c.locationId
  | .getCustomFields locationId => locationId.truthy || envTruthy c.locationId
  | .getAllTasks contactId => contactId.truthy
  | .testConnection => envTruthy c.locationId
  | .getAvailableTools => true

/-- The values an operation converts to a string while it builds its endpoint:
the identifier of a template literal, or the values of the options of a list
operation. -/
def interpolated (c : GoHighLevelMCPClient) : ClientCall → List JsVal
  | .getContacts params => (params.getD []).map Prod.snd
  | .getContact contactId => [contactId]
  | .createContact _ => []
  | .updateContact contactId _ => [contactId]
  | .upsertContact _ => []
  | .addTagsToContact contactId _ => [contactId]
  | .removeTagsFromContact contactId _ => [contactId]
  | .searchConversations params => (params.getD []).map Prod.snd
  | .getMessages conversationId => [conversationId]
  | .sendMessage conversationId _ => [conversationId]
  | .getCalendarEvents params => (params.getD []).map Prod.snd
  | .getAppointmentNotes appointmentId => [appointmentId]
  | .searchOpportunities params => (params.getD []).map Prod.snd
  | .getOpportunity opportunityId => [opportunityId]
  | .updateOpportunity opportunityId _ => [opportunityId]
  | .getPipelines => []
  | .getOrderById orderId => [orderId]
  | .listTransactions params => (params.getD []).map Prod.snd
  | .getLocation locationId => [JsVal.or locationId (envVal c.locationId)]
  | .getCustomFields locationId => [JsVal.or locationId (envVal c.locationId)]
  | .getAllTasks contactId => [contactId]
  | .testConnection => [JsVal.or .undefined (envVal c.locationId)]
  | .getAvailableTools => []

/-! ## The tool-call surface (`src/mcp-server.js`) -/

/-- One entry of `properties` in an input schema. -/
structure SchemaProperty where
  name : String
  type : String
  description : Option String := none
  required : Option Bool := none
  items : Option String := none

/-- The `inputSchema` of a tool; `required` is `none` when the key is absent. -/
structure InputSchema where
  type : String
  properties : List SchemaProperty
  required : Option (List String) := none

/-- A tool descriptor. -/
structure Tool where
  name : String
  description : String
  inputSchema : InputSchema

/-- The constant `tools`. -/
def tools : List Tool := [
  { name := "ghl_get_contacts"
    description := "Get all contacts from GoHighLevel"
    inputSchema := {
      type := "object"
      properties := [
        { name := "limit", type := "number", description := some "Limit number of results" },
        { name := "skip", type := "number", description := some "Skip number of results" }] } },
  { name := "ghl_get_contact"
    description := "Get a specific contact by ID"
    inputSchema := {
      type := "object"
      properties := [
        { name := "contactId", type := "string", description := some "Contact ID",
          required := some true }]
      required := some ["contactId"] } },
  { name := "ghl_create_contact"
    description := "Create a new contact"
    inputSchema := {
      type := "object"
      properties := [
        { name := "firstName", type := "string" },
        { name := "lastName", type := "string" },
        { name := "email", type := "string" },
        { name := "phone", type := "string" },
        { name := "tags", type := "array", items := some "string" }]
      required := some ["email"] } },
  { name := "ghl_update_contact"
    description := "Update an existing contact"
    inputSchema := {
      type := "object"
      properties := [
        { name := "contactId", type := "string", required := some true },
        { name := "firstName", type := "string" },
        { name := "lastName", type := "string" },
        { name := "email", type := "string" },
        { name := "phone", type := "string" }]
      required := some ["contactId"] } },
  { name := "ghl_search_conversations"
    description := "Search conversations"
    inputSchema := {
      type := "object"
      properties := [
        { name := "contactId", type := "string" },
        { name := "status", type := "string" }] } },
  { name := "ghl_get_messages"
    description := "Get messages from a conversation"
    inputSchema := {
      type := "object"
      properties := [
        { name := "conversationId", type := "string", required := some true }]
      required := some ["conversationId"] } },
  { name := "ghl_send_message"
    description := "Send a message to a conversation"
    inputSchema := {
      type := "object"
      properties := [
        { name := "conversationId", type := "string", required := some true },
        { name := "message", type := "string", required := some true }]
      required := some ["conversationId", "message"] } },
  { name := "ghl_get_location"
    description := "Get location/sub-account details"
    inputSchema := {
      type := "object"
      properties := [
        { name := "locationId", type := "string" }] } },
  { name := "ghl_search_opportunities"
    description := "Search opportunities"
    inputSchema := {
      type := "object"
      properties := [
        { name := "pipelineId", type := "string" },
        { name := "status", type := "string" }] } }]

/-- The `list_tools` handler: `(\x7b tools \x7d)`. -/
def listToolsHandler : List Tool := tools

/-- The names of the declared tools. -/
def toolNames : List String := tools.map Tool.name

/-- The `params` of a `call_tool` request; `arguments` is optional in the
protocol, `none` is an absent `arguments`. -/
structure CallToolParams where
  name : String
  arguments : Option Fields

/-- The value of the variable `args`: `undefined` or the arguments object. -/
def argsVal : Option Fields → JsVal
  | none => .undefined
  | some fs => .obj fs

/-- The property read `args.key`: a TypeError is thrown when `args` is
`undefined`. -/
def readArg (args : Option Fields) (key : String) : Except String JsVal :=
  match args with
  | none => .error ("Cannot read properties of undefined (reading \x27" ++ key ++ "\x27)")
  | some fs => .ok (fs.get key)

/-- The `switch (name)` of the `call_tool` handler, up to the client call: the
arguments of the call are evaluated, the call itself is returned.  An `error`
is a thrown `Error` with that message. -/
def dispatch (name : String) (args : Option Fields) : Except String ClientCall :=
  match name with
  | "ghl_get_contacts" => .ok (.getContacts args)
  | "ghl_get_contact" => do
    let contactId ← readArg args "contactId"
    .ok (.getContact contactId)
  | "ghl_create_contact" => .ok (.createContact (argsVal args))
  | "ghl_update_contact" => do
    let contactId ← readArg args "contactId"
    .ok (.updateContact contactId (argsVal args))
  | "ghl_search_conversations" => .ok (.searchConversations args)
  | "ghl_get_messages" => do
    let conversationId ← readArg args "conversationId"
    .ok (.getMessages conversationId)
  | "ghl_send_message" => do
    let conversationId ← readArg args "conversationId"
    let message ← readArg args "message"
    .ok (.sendMessage conversationId message)
  | "ghl_get_location" => do
    let locationId ← readArg args "locationId"
    .ok (.getLocation locationId)
  | "ghl_search_opportunities" => .ok (.searchOpportunities args)
  | _ => .error ("Unknown tool: " ++ name)

/-- A text content block. -/
structure TextContent where
  type : String
  text : Option String

/-- The object the `call_tool` handler returns; `isError` is `none` when the
key is absent. -/
structure CallToolResult where
  content : List TextContent
  isError : Option Bool := none

/-- The response of the `catch` of the `call_tool` handler. -/
def errorResponse (message : String) : CallToolResult :=
  { content := [{ type := "text", text := jsonStringify (.obj [("error", .str message)]) }]
    isError := some true }

/-- The `call_tool` handler: the response, and the axios calls issued while
handling the request.  An error thrown by the switch or by the awaited client
operation is caught. -/
def callToolHandler (c : GoHighLevelMCPClient) (up : Upstream) (params : CallToolParams) :
    CallToolResult × List AxiosConfig :=
  match dispatch params.name params.arguments with
  | .ok call =>
    match call.run c up with
    | (.ok result, trace) =>
      ({ content := [{ type := "text", text := jsonStringify result.toJs }] }, trace)
    | (.error message, trace) => (errorResponse message, trace)
  | .error message => (errorResponse message, [])

/-! ## The command-line surface (`main` of `src/index.js`) -/

/-- How a run of `main` ends: the process exits with a code (`process.exit(1)`
in the `catch`, code 0 when `main` returns and nothing is pending), or the
HTTP server was started and the process keeps serving. -/
inductive CliEnd where
  | exit (code : Nat)
  | serving

/-- The function `main()`, for the environment and the arguments
`process.argv.slice(2)`: how the run ends and the requests it issued.  The
client is constructed first, inside the `try`; an error thrown there or by an
awaited client operation reaches the `catch`, which exits with code 1. -/
def main (env : Env) (up : Upstream) (args : List String) : CliEnd × List AxiosConfig :=
  let finish (outcome : Outcome) : CliEnd × List AxiosConfig :=
    match outcome with
    | (.ok _, trace) => (.exit 0, trace)
    | (.error _, trace) => (.exit 1, trace)
  match GoHighLevelMCPClient.new env with
  | .error _ => (.exit 1, [])
  | .ok client =>
    match args with
    | [] => (.exit 0, [])
    | command :: rest =>
      if command = "" then (.exit 0, [])
      else
        match command with
        | "test" => finish (client.testConnection up)
        | "tools" => finish GoHighLevelMCPClient.getAvailableTools
        | "contacts" => finish (client.getContacts up none)
        | "contact" =>
          match rest with
          | [] => (.exit 0, [])
          | contactId :: _ =>
            if contactId = "" then (.exit 0, [])
            else finish (client.getContact up (.str contactId))
        | "location" => finish (client.getLocation up .undefined)
        | "server" => (.serving, [])
        | _ => (.exit 0, [])

/-! ## Concrete instances used by the examples -/

/-- A client with a token and no location identifier. -/
def sampleClient : GoHighLevelMCPClient :=
  { token := "tok"
    locationId := none
    mcpUrl := "https://services.leadconnectorhq.com/mcp/"
    debug := false
    headers := [("Authorization", "Bearer tok"), ("Content-Type", "application/json"),
      ("Accept", "application/json")] }

/-- An object whose own property `toString` is not a function. -/
def unconvertible : JsVal := .obj [("toString", .num "1")]

/-- The body `\x7b contacts: [] \x7d`. -/
def contactsBody : JsVal := .obj [("contacts", .arr [])]

/-- The Result of a request answered with HTTP 200 and `contactsBody`. -/
def contactsResult : Result :=
  { success := true, data := some contactsBody, error := none, status := some 200 }

/-- An upstream answering every request with HTTP 200 and `contactsBody`. -/
def upstreamOk : Upstream := fun _ => .response 200 contactsBody

/-- An upstream answering every request with HTTP 404 and the JSON body `0`. -/
def upstreamNotFoundZero : Upstream := fun _ => .response 404 (.num "0")

/-- An upstream answering every request with HTTP 404 and a JSON object. -/
def upstreamNotFound : Upstream := fun _ => .response 404 (.obj [("message", .str "Not found")])

/-- An upstream that refuses every connection. -/
def upstreamRefused : Upstream := fun _ => .failure "connect ECONNREFUSED 127.0.0.1:443"

/-- An environment with a token and nothing else. -/
def envTokenOnly : Env :=
  { GHL_PRIVATE_INTEGRATION_TOKEN := some "tok"
    GHL_LOCATION_ID := none
    GHL_MCP_URL := none
    DEBUG := none }

/-- An environment with a location and an empty token. -/
def envEmptyToken : Env :=
  { GHL_PRIVATE_INTEGRATION_TOKEN := some ""
    GHL_LOCATION_ID := some "loc1"
    GHL_MCP_URL := none
    DEBUG := none }

/-! ## Auxiliary lemmas -/

/-- A request issues exactly the one call with the configuration it built. -/
theorem makeRequest_trace (c : GoHighLevelMCPClient) (up : Upstream)
    (method endpoint : String) (data : JsVal) :
    (makeRequest c up method endpoint data).2 = [requestConfig c method endpoint data] := by
  simp only [makeRequest]
  split <;> rfl

/-- The result of a request, by what the upstream did with it: `makeRequest`
always resolves to a Result. -/
theorem makeRequest_result (c : GoHighLevelMCPClient) (up : Upstream)
    (method endpoint : String) (data : JsVal) :
    (makeRequest c up method endpoint data).1 =
      .ok (match up (requestConfig c method endpoint data) with
      | .response status body =>
        if 200 ≤ status ∧ status < 300 then
          { success := true, data := some body, status := some status }
        else
          { success := false
            error := some (JsVal.or body
              (.str ("Request failed with status code " ++ toString status)))
            status := some (if status != 0 then status else 500) }
      | .failure message =>
        { success := false, error := some (.str message), status := some 500 }) := by
  cases h : up (requestConfig c method endpoint data) with
  | response status body =>
    by_cases h2 : 200 ≤ status ∧ status < 300
    · simp [makeRequest, axios, h, h2]
    · simp [makeRequest, axios, h, h2]
  | failure message => simp [makeRequest, axios, h, JsVal.or, JsVal.truthy]

/-- A call whose endpoint is an expression either throws before any request or
is the request to the endpoint built. -/
theorem requestAt_cases (c : GoHighLevelMCPClient) (up : Upstream) (method : String)
    (endpoint : Except String String) (data : JsVal) :
    (∃ e, endpoint = .error e ∧ requestAt c up method endpoint data = thrown e) ∨
    (∃ path, endpoint = .ok path ∧
      requestAt c up method endpoint data = makeRequest c up method path data) := by
  cases endpoint with
  | error e => exact Or.inl ⟨e, rfl, rfl⟩
  | ok path => exact Or.inr ⟨path, rfl, rfl⟩

/-- Every client call is a validation failure, the fixed tool list, one
request, or an error thrown before any request. -/
theorem ClientCall.run_cases (c : GoHighLevelMCPClient) (up : Upstream) (call : ClientCall) :
    (∃ message, call.run c up = validationFailure message) ∨
    (call = .getAvailableTools ∧ call.run c up = GoHighLevelMCPClient.getAvailableTools) ∨
    (∃ method endpoint data, call.run c up = makeRequest c up method endpoint data) ∨
    (∃ e, call.run c up = thrown e) := by
  have hreq : ∀ (method : String) (endpoint : Except String String) (data : JsVal),
      (∃ m p d, requestAt c up method endpoint data = makeRequest c up m p d) ∨
      (∃ e, requestAt c up method endpoint data = thrown e) := by
    intro method endpoint data
    rcases requestAt_cases c up method endpoint data with ⟨e, _, h⟩ | ⟨path, _, h⟩
    · exact Or.inr ⟨e, h⟩
    · exact Or.inl ⟨_, _, _, h⟩
  cases call <;>
    simp only [ClientCall.run, GoHighLevelMCPClient.getContacts,
      GoHighLevelMCPClient.getContact, GoHighLevelMCPClient.createContact,
      GoHighLevelMCPClient.updateContact, GoHighLevelMCPClient.upsertContact,
      GoHighLevelMCPClient.addTagsToContact, GoHighLevelMCPClient.removeTagsFromContact,
      GoHighLevelMCPClient.searchConversations, GoHighLevelMCPClient.getMessages,
      GoHighLevelMCPClient.sendMessage, GoHighLevelMCPClient.getCalendarEvents,
      GoHighLevelMCPClient.getAppointmentNotes, GoHighLevelMCPClient.searchOpportunities,
      GoHighLevelMCPClient.getOpportunity, GoHighLevelMCPClient.updateOpportunity,
      GoHighLevelMCPClient.getPipelines, GoHighLevelMCPClient.getOrderById,
      GoHighLevelMCPClient.listTransactions, GoHighLevelMCPClient.getLocation,
      GoHighLevelMCPClient.getCustomFields, GoHighLevelMCPClient.getAllTasks,
      GoHighLevelMCPClient.testConnection] <;>
    first
    | exact Or.inr (Or.inl ⟨trivial, trivial⟩)
    | exact Or.inr (Or.inl ⟨rfl, rfl⟩)
    | exact Or.inr (Or.inr (Or.inl ⟨_, _, _, rfl⟩))
    | exact Or.inr (Or.inr (hreq _ _ _))
    | (split
       · exact Or.inl ⟨_, rfl⟩
       · first
         | exact Or.inr (Or.inr (Or.inl ⟨_, _, _, rfl⟩))
         | exact Or.inr (Or.inr (hreq _ _ _)))

/-! ## Required-field validation -/

/-- C1: for every operation with required arguments, whenever a required
identifier or body is missing (falsy: `undefined`, `null`, the empty string,
...) or `tags` is not an array, the operation returns `success: false` with the
fixed error message of that operation and issues no request; for `getLocation`
and `getCustomFields` this is the case where no location is passed and none is
configured. -/
theorem validation_failure_issues_no_request (c : GoHighLevelMCPClient) (up : Upstream) :
    (∀ contactId, contactId.truthy = false →
      c.getContact up contactId = validationFailure "Contact ID is required") ∧
    (∀ contactData, contactData.truthy = false →
      c.createContact up contactData = validationFailure "Contact data is required") ∧
    (∀ contactId contactData, contactId.truthy = false ∨ contactData.truthy = false →
      c.updateContact up contactId contactData =
        validationFailure "Contact ID and data are required") ∧
    (∀ contactData, contactData.truthy = false →
      c.upsertContact up contactData = validationFailure "Contact data is required") ∧
    (∀ contactId tags,
      contactId.truthy = false ∨ tags.truthy = false ∨ tags.isArray = false →
      c.addTagsToContact up contactId tags =
        validationFailure "Contact ID and tags array are required") ∧
    (∀ contactId tags,
      contactId.truthy = false ∨ tags.truthy = false ∨ tags.isArray = false →
      c.removeTagsFromContact up contactId tags =
        validationFailure "Contact ID and tags array are required") ∧
    (∀ conversationId, conversationId.truthy = false →
      c.getMessages up conversationId = validationFailure "Conversation ID is required") ∧
    (∀ conversationId message, conversationId.truthy = false ∨ message.truthy = false →
      c.sendMessage up conversationId message =
        validationFailure "Conversation ID and message are required") ∧
    (∀ appointmentId, appointmentId.truthy = false →
      c.getAppointmentNotes up appointmentId =
        validationFailure "Appointment ID is required") ∧
    (∀ opportunityId, opportunityId.truthy = false →
      c.getOpportunity up opportunityId = validationFailure "Opportunity ID is required") ∧
    (∀ opportunityId opportunityData,
      opportunityId.truthy = false ∨ opportunityData.truthy = false →
      c.updateOpportunity up opportunityId opportunityData =
        validationFailure "Opportunity ID and data are required") ∧
    (∀ orderId, orderId.truthy = false →
      c.getOrderById up orderId = validationFailure "Order ID is required") ∧
    (∀ contactId, contactId.truthy = false →
      c.getAllTasks up contactId = validationFailure "Contact ID is required") ∧
    (∀ locationId, locationId.truthy = false → envTruthy c.locationId = false →
      c.getLocation up locationId = validationFailure "Location ID is required") ∧
    (∀ locationId, locationId.truthy = false → envTruthy c.locationId = false →
      c.getCustomFields up locationId = validationFailure "Location ID is required") ∧
    (∀ message, validationFailure message =
      (.ok { success := false, data := none, error := some (.str message), status := none },
       [])) := by
  have henv : ∀ o : Option String, envTruthy o = false → (envVal o).truthy = false := by
    intro o h
    cases o with
    | none => rfl
    | some s => simpa [envTruthy, envVal, JsVal.truthy] using h
  refine ⟨?_, ?_, ?_, ?_, ?_, ?_, ?_, ?_, ?_, ?_, ?_, ?_, ?_, ?_, ?_, fun _ => rfl⟩
  · intro x h; simp [GoHighLevelMCPClient.getContact, h]
  · intro x h; simp [GoHighLevelMCPClient.createContact, h]
  · intro x y h; rcases h with h | h <;> simp [GoHighLevelMCPClient.updateContact, h]
  · intro x h; simp [GoHighLevelMCPClient.upsertContact, h]
  · intro x y h
    rcases h with h | h | h <;> simp [GoHighLevelMCPClient.addTagsToContact, h]
  · intro x y h
    rcases h with h | h | h <;> simp [GoHighLevelMCPClient.removeTagsFromContact, h]
  · intro x h; simp [GoHighLevelMCPClient.getMessages, h]
  · intro x y h; rcases h with h | h <;> simp [GoHighLevelMCPClient.sendMessage, h]
  · intro x h; simp [GoHighLevelMCPClient.getAppointmentNotes, h]
  · intro x h; simp [GoHighLevelMCPClient.getOpportunity, h]
  · intro x y h; rcases h with h | h <;> simp [GoHighLevelMCPClient.updateOpportunity, h]
  · intro x h; simp [GoHighLevelMCPClient.getOrderById, h]
  · intro x h; simp [GoHighLevelMCPClient.getAllTasks, h]
  · intro x h h2; simp [GoHighLevelMCPClient.getLocation, JsVal.or, h, henv _ h2]
  · intro x h h2; simp [GoHighLevelMCPClient.getCustomFields, JsVal.or, h, henv _ h2]

/-- C1, at the inputs of the spec: `getContact(undefined)` and
`addTagsToContact('c1', 'not-an-array')`, and `getLocation()` on a client with
no location configured. -/
theorem validation_failure_issues_no_request_witness :
    sampleClient.getContact upstreamOk .undefined =
      (.ok { success := false, error := some (.str "Contact ID is required") }, []) ∧
    sampleClient.addTagsToContact upstreamOk (.str "c1") (.str "not-an-array") =
      (.ok { success := false, error := some (.str "Contact ID and tags array are required") },
       []) ∧
    sampleClient.getLocation upstreamOk .undefined =
      (.ok { success := false, error := some (.str "Location ID is required") }, []) :=
  ⟨(validation_failure_issues_no_request sampleClient upstreamOk).1 .undefined rfl,
   (validation_failure_issues_no_request sampleClient upstreamOk).2.2.2.2.1
     (.str "c1") (.str "not-an-array") (Or.inr (Or.inr rfl)),
   (validation_failure_issues_no_request sampleClient upstreamOk).2.2.2.2.2.2.2.2.2.2.2.2.2.1
     .undefined rfl rfl⟩

/-! ## The result of a request -/

/-- C2: whenever a client operation reaches the network (it issued the request
`config`) and the upstream answers that request with a 2xx status and a body,
the Result is `success: true` with `data` the upstream body and `status` the
upstream status, and nothing else. -/
theorem success_result_of_2xx (c : GoHighLevelMCPClient) (up : Upstream) (call : ClientCall)
    (config : AxiosConfig) (status : Nat) (body : JsVal)
    (hreach : (call.run c up).2 = [config])
    (hreply : up config = .response status body)
    (h2xx : 200 ≤ status ∧ status < 300) :
    (call.run c up).1 =
      .ok { success := true, data := some body, error := none, status := some status } := by
  rcases ClientCall.run_cases c up call with
    ⟨message, h⟩ | ⟨_, h⟩ | ⟨method, endpoint, data, h⟩ | ⟨e, h⟩
  · rw [h] at hreach
    simp [validationFailure] at hreach
  · rw [h] at hreach
    simp [GoHighLevelMCPClient.getAvailableTools] at hreach
  · rw [h] at hreach ⊢
    rw [makeRequest_trace] at hreach
    have hconfig : requestConfig c method endpoint data = config := by simpa using hreach
    rw [makeRequest_result, hconfig, hreply]
    simp [h2xx]
  · rw [h] at hreach
    simp [thrown] at hreach

/-- C2, at the input of the spec: `getContacts(\x7b limit: 5 \x7d)` against an
upstream that answers HTTP 200 with a `contacts` body. -/
theorem success_result_of_2xx_witness :
    (ClientCall.run sampleClient upstreamOk (.getContacts (some [("limit", .num "5")]))).1 =
      .ok { success := true, data := some (.obj [("contacts", .arr [])]), error := none,
            status := some 200 } :=
  success_result_of_2xx sampleClient upstreamOk (.getContacts (some [("limit", .num "5")]))
    (requestConfig sampleClient "GET" "contacts_get-contacts?limit=5" .null) 200 contactsBody
    rfl rfl (by decide)

/-- C3 as stated fails: the upstream answers 404 with the JSON body `0`; the
response carries a body, yet `error` is the error message and not the body. -/
theorem error_is_message_on_falsy_body :
    upstreamNotFoundZero (requestConfig sampleClient "GET" "contacts_get-contacts" .null) =
      .response 404 (.num "0") ∧
    (makeRequest sampleClient upstreamNotFoundZero "GET" "contacts_get-contacts" .null).1 =
      .ok { success := false, data := none
            error := some (.str "Request failed with status code 404"), status := some 404 } ∧
    (∀ r, (makeRequest sampleClient upstreamNotFoundZero "GET" "contacts_get-contacts"
        .null).1 = .ok r → r.error ≠ some (.num "0")) := by
  refine ⟨rfl, rfl, ?_⟩
  intro r hr h
  have hr2 : r.error = some (.str "Request failed with status code 404") := by
    injection hr with hr
    subst hr
    rfl
  rw [hr2] at h
  simp at h

/-- C3, amended: when the upstream answers a request with a 4xx or 5xx status,
`makeRequest` returns `success: false` with `status` the upstream status and
`error` the upstream body when that body is truthy; for a falsy body (empty,
`null`, `false`, `0`) `error` is the error message.  One request was issued. -/
theorem failure_result_of_error_status (c : GoHighLevelMCPClient) (up : Upstream)
    (method endpoint : String) (data : JsVal) (status : Nat) (body : JsVal)
    (hreply : up (requestConfig c method endpoint data) = .response status body)
    (hstatus : 400 ≤ status ∧ status ≤ 599) :
    makeRequest c up method endpoint data =
      (.ok { success := false, data := none
             error := some (if body.truthy then body
               else .str ("Request failed with status code " ++ toString status))
             status := some status }, [requestConfig c method endpoint data]) := by
  have h1 := makeRequest_result c up method endpoint data
  have h2 := makeRequest_trace c up method endpoint data
  rw [hreply] at h1
  have hnot : ¬ (200 ≤ status ∧ status < 300) := by omega
  have hne : (status != 0) = true := by
    simp only [bne_iff_ne, ne_eq]
    omega
  simp only [hnot, if_false, hne, if_true, JsVal.or] at h1
  exact Prod.ext h1 h2

/-- C3, amended, at a 404 answer with a JSON object as body. -/
theorem failure_result_of_error_status_witness :
    makeRequest sampleClient upstreamNotFound "GET" "contacts_get-contact?contactId=c1" .null =
      (.ok { success := false, data := none
             error := some (.obj [("message", .str "Not found")])
             status := some 404 },
       [requestConfig sampleClient "GET" "contacts_get-contact?contactId=c1" .null]) :=
  failure_result_of_error_status sampleClient upstreamNotFound "GET"
    "contacts_get-contact?contactId=c1" .null 404 (.obj [("message", .str "Not found")])
    rfl (by decide)

/-- C4: when no response is received for a request (the transport fails with a
message), `makeRequest` returns a Result, `success: false`, `status: 500` and
`error` the failure message; the one request was issued. -/
theorem failure_result_of_transport_failure (c : GoHighLevelMCPClient) (up : Upstream)
    (method endpoint : String) (data : JsVal) (message : String)
    (hreply : up (requestConfig c method endpoint data) = .failure message) :
    makeRequest c up method endpoint data =
      (.ok { success := false, data := none, error := some (.str message), status := some 500 },
       [requestConfig c method endpoint data]) := by
  have h1 := makeRequest_result c up method endpoint data
  have h2 := makeRequest_trace c up method endpoint data
  rw [hreply] at h1
  exact Prod.ext h1 h2

/-- C4, at a refused connection. -/
theorem failure_result_of_transport_failure_witness :
    makeRequest sampleClient upstreamRefused "GET" "opportunities_get-pipelines" .null =
      (.ok { success := false, data := none
             error := some (.str "connect ECONNREFUSED 127.0.0.1:443"), status := some 500 },
       [requestConfig sampleClient "GET" "opportunities_get-pipelines" .null]) :=
  failure_result_of_transport_failure sampleClient upstreamRefused "GET"
    "opportunities_get-pipelines" .null "connect ECONNREFUSED 127.0.0.1:443" rfl

/-! ## The shape of a Result -/

/-- An operation that issued no request threw or returned a Result without
status; an operation that issued a request returned a Result whose status is
that of the response, or 500. -/
theorem ClientCall.run_status (c : GoHighLevelMCPClient) (up : Upstream) (call : ClientCall) :
    ((call.run c up).2 = [] ∧
      ((∃ e, (call.run c up).1 = .error e) ∨
       (∃ r, (call.run c up).1 = .ok r ∧ r.status = none))) ∨
    (∃ config r, (call.run c up).2 = [config] ∧ (call.run c up).1 = .ok r ∧
      r.status = some (match up config with
        | .response status _ => if status != 0 then status else 500
        | .failure _ => 500)) := by
  rcases ClientCall.run_cases c up call with
    ⟨message, h⟩ | ⟨_, h⟩ | ⟨method, endpoint, data, h⟩ | ⟨e, h⟩
  · exact Or.inl (by rw [h]; exact ⟨rfl, Or.inr ⟨_, rfl, rfl⟩⟩)
  · exact Or.inl (by rw [h]; exact ⟨rfl, Or.inr ⟨_, rfl, rfl⟩⟩)
  · have hstatus : ∃ r, (makeRequest c up method endpoint data).1 = .ok r ∧
        r.status = some (match up (requestConfig c method endpoint data) with
          | .response status _ => if status != 0 then status else 500
          | .failure _ => 500) := by
      rw [makeRequest_result]
      refine ⟨_, rfl, ?_⟩
      cases up (requestConfig c method endpoint data) with
      | response status body =>
        by_cases h2 : 200 ≤ status ∧ status < 300
        · have hne : (status != 0) = true := by
            simp only [bne_iff_ne, ne_eq]
            omega
          simp [h2, hne]
        · simp [h2]
      | failure message => rfl
    obtain ⟨r, hr, hs⟩ := hstatus
    exact Or.inr ⟨requestConfig c method endpoint data, r,
      by rw [h, makeRequest_trace], by rw [h, hr], hs⟩
  · exact Or.inl (by rw [h]; exact ⟨rfl, Or.inl ⟨e, rfl⟩⟩)

/-- C5 as stated fails: the Result of `getContact(undefined)` and the Result of
`getAvailableTools()` have no `status` field. -/
theorem status_absent_without_request :
    (ClientCall.run sampleClient upstreamOk (.getContact .undefined)).1 =
      .ok { success := false, data := none, error := some (.str "Contact ID is required"),
            status := none } ∧
    (∃ r, (ClientCall.run sampleClient upstreamOk .getAvailableTools).1 = .ok r ∧
      r.success = true ∧ r.status = none) ∧
    ¬ (∀ (c : GoHighLevelMCPClient) (up : Upstream) (call : ClientCall) (r : Result),
        (call.run c up).1 = .ok r → ∃ n : Nat, r.status = some n) := by
  refine ⟨rfl, ⟨_, rfl, rfl, rfl⟩, ?_⟩
  intro h
  obtain ⟨n, hn⟩ := h sampleClient upstreamOk (.getContact .undefined) _ rfl
  simp at hn

/-- C5, amended: a Result carries a `status` field exactly when the operation
issued a request; the field is then an integer, the status code of the
upstream response when one was received and 500 when none was.  A Result
returned without a request (validation failure, `getAvailableTools`) has no
`status` field. -/
theorem status_field_of_result (c : GoHighLevelMCPClient) (up : Upstream) (call : ClientCall) :
    ((call.run c up).2 = [] → ∀ r, (call.run c up).1 = .ok r → r.status = none) ∧
    (∀ config status body, (call.run c up).2 = [config] →
      up config = .response status body → status ≠ 0 →
      ∃ r, (call.run c up).1 = .ok r ∧ r.status = some status) ∧
    (∀ config message, (call.run c up).2 = [config] → up config = .failure message →
      ∃ r, (call.run c up).1 = .ok r ∧ r.status = some 500) := by
  rcases ClientCall.run_status c up call with ⟨h1, h2⟩ | ⟨config, r, h1, hr, h2⟩
  · refine ⟨?_, ?_, ?_⟩
    · intro _ r hr
      rcases h2 with ⟨e, he⟩ | ⟨r2, hr2, hs⟩
      · rw [he] at hr
        simp at hr
      · rw [hr2] at hr
        injection hr with hr
        rw [← hr]
        exact hs
    · intro config status body h
      simp [h1] at h
    · intro config message h
      simp [h1] at h
  · refine ⟨?_, ?_, ?_⟩
    · intro h
      simp [h1] at h
    · intro config2 status body h hreply hne
      have hc : config = config2 := by simpa [h1] using h
      subst hc
      refine ⟨r, hr, ?_⟩
      rw [h2, hreply]
      simp [hne]
    · intro config2 message h hreply
      have hc : config = config2 := by simpa [h1] using h
      subst hc
      refine ⟨r, hr, ?_⟩
      rw [h2, hreply]

/-- C5, amended, at three calls: a validation failure, a 200 answer and a
refused connection. -/
theorem status_field_of_result_witness :
    (∀ r, (ClientCall.run sampleClient upstreamOk (.getContact .undefined)).1 = .ok r →
      r.status = none) ∧
    (∃ r, (ClientCall.run sampleClient upstreamOk .getPipelines).1 = .ok r ∧
      r.status = some 200) ∧
    (∃ r, (ClientCall.run sampleClient upstreamRefused .getPipelines).1 = .ok r ∧
      r.status = some 500) :=
  ⟨(status_field_of_result sampleClient upstreamOk (.getContact .undefined)).1 rfl,
   (status_field_of_result sampleClient upstreamOk .getPipelines).2.1
     (requestConfig sampleClient "GET" "opportunities_get-pipelines" .null) 200 contactsBody
     rfl rfl (by decide),
   (status_field_of_result sampleClient upstreamRefused .getPipelines).2.2
     (requestConfig sampleClient "GET" "opportunities_get-pipelines" .null)
     "connect ECONNREFUSED 127.0.0.1:443" rfl rfl⟩

/-- C6: in every Result of every client operation the `data` field is present
if and only if `success` is true, and the `error` field is present if and only
if `success` is false; so exactly one of the two is present. -/
theorem data_xor_error (c : GoHighLevelMCPClient) (up : Upstream) (call : ClientCall)
    (r : Result) (hr : (call.run c up).1 = .ok r) :
    (r.data.isSome = true ↔ r.success = true) ∧
    (r.error.isSome = true ↔ r.success = false) := by
  rcases ClientCall.run_cases c up call with
    ⟨message, h⟩ | ⟨_, h⟩ | ⟨method, endpoint, data, h⟩ | ⟨e, h⟩
  · rw [h] at hr
    injection hr with hr
    subst hr
    simp
  · rw [h] at hr
    injection hr with hr
    subst hr
    simp
  · rw [h, makeRequest_result] at hr
    injection hr with hr
    subst hr
    cases up (requestConfig c method endpoint data) with
    | response status body =>
      by_cases h2 : 200 ≤ status ∧ status < 300
      · simp [h2]
      · simp [h2]
    | failure message => simp
  · rw [h] at hr
    simp [thrown] at hr

/-- C6, at the Result of `getContacts()` on a 200 answer: `data` is present and
`error` is not. -/
theorem data_xor_error_witness :
    (ClientCall.run sampleClient upstreamOk (.getContacts none)).1 = .ok contactsResult ∧
    (contactsResult.data.isSome = true ↔ contactsResult.success = true) ∧
    (contactsResult.error.isSome = true ↔ contactsResult.success = false) :=
  ⟨rfl, data_xor_error sampleClient upstreamOk (.getContacts none) contactsResult rfl⟩

/-! ## The tool-call surface -/

/-- The text of the error block, for any message. -/
theorem jsonStringify_error (message : String) :
    jsonStringify (.obj [("error", .str message)]) =
      some ("\x7b\n  \"error\": " ++ quoteJSONString message ++ "\n\x7d") := by
  have e1 : "\x7b\n  \"error\": " =
      "\x7b\n" ++ ("  " ++ (quoteJSONString "error" ++ ": ")) := by decide
  have e2 : "\n\x7d" = "\n" ++ "\x7d" := by decide
  simp only [jsonStringify, serializeJSONProperty, serializeJSONMembers, serializeJSONMember,
    gap, String.intercalate, String.intercalate.go]
  rw [e1, e2]
  simp only [String.append_assoc, String.empty_append]

/-- A declared tool called with an arguments object is dispatched to a client
call.  When that call resolves, the response has no `isError` and its one text
block is the pretty-printed Result; when it throws, the response is the error
response with the thrown message. -/
theorem callTool_declared_with_arguments (c : GoHighLevelMCPClient) (up : Upstream)
    (name : String) (fs : Fields) (hname : name ∈ toolNames) :
    ∃ call, dispatch name (some fs) = .ok call ∧
      callToolHandler c up { name := name, arguments := some fs } =
        (match (call.run c up).1 with
          | .ok result =>
            { content := [{ type := "text", text := jsonStringify result.toJs }]
              isError := none }
          | .error message => errorResponse message, (call.run c up).2) := by
  have hcall : ∀ call, dispatch name (some fs) = .ok call →
      callToolHandler c up { name := name, arguments := some fs } =
        (match (call.run c up).1 with
          | .ok result =>
            { content := [{ type := "text", text := jsonStringify result.toJs }]
              isError := none }
          | .error message => errorResponse message, (call.run c up).2) := by
    intro call h
    simp only [callToolHandler, h]
    rcases hrun : call.run c up with ⟨res, trace⟩
    cases res <;> rfl
  simp only [toolNames, tools, List.map, List.mem_cons, List.mem_singleton, List.not_mem_nil,
    or_false] at hname
  rcases hname with h | h | h | h | h | h | h | h | h <;> subst h <;>
    exact ⟨_, rfl, hcall _ rfl⟩

/-- C7 fails on the code: `ghl_get_location` is a declared tool with no required
field, yet a `call_tool` request for it without an `arguments` object is
answered with `isError: true`, the text being the TypeError of the property
read on `undefined`, and no client operation runs. -/
theorem declared_tool_without_arguments_is_error (c : GoHighLevelMCPClient) (up : Upstream) :
    "ghl_get_location" ∈ toolNames ∧
    callToolHandler c up { name := "ghl_get_location", arguments := none } =
      ({ content := [{
           type := "text"
           text := some ("\x7b\n  \"error\": \"Cannot read properties of undefined " ++
             "(reading \x27locationId\x27)\"\n\x7d") }]
         isError := some true }, []) :=
  ⟨by decide, rfl⟩

/-- C8: a `call_tool` request whose name is not a declared tool is answered, not
thrown: the dispatch raises `Unknown tool: <name>` without reaching a client
operation, no request is issued, and the response has `isError: true` and one
text block, the pretty-printed object whose `error` is that message; the
message ends with the tool name. -/
theorem unknown_tool_is_protocol_error (c : GoHighLevelMCPClient) (up : Upstream)
    (name : String) (args : Option Fields) (hname : name ∉ toolNames) :
    dispatch name args = .error ("Unknown tool: " ++ name) ∧
    callToolHandler c up { name := name, arguments := args } =
      ({ content := [{
           type := "text"
           text := some ("\x7b\n  \"error\": " ++
             quoteJSONString ("Unknown tool: " ++ name) ++ "\n\x7d") }]
         isError := some true }, []) ∧
    name.data <:+ ("Unknown tool: " ++ name).data := by
  have hd : dispatch name args = .error ("Unknown tool: " ++ name) := by
    simp only [toolNames, tools, List.map, List.mem_cons, List.mem_singleton,
      List.not_mem_nil, or_false, not_or] at hname
    obtain ⟨h1, h2, h3, h4, h5, h6, h7, h8, h9⟩ := hname
    unfold dispatch
    split <;> first | rfl | contradiction
  refine ⟨hd, ?_, ?_⟩
  · simp only [callToolHandler, hd, errorResponse, jsonStringify_error]
  · exact ⟨"Unknown tool: ".data, by simp [String.data_append]⟩

/-- C8, at the name `ghl_delete_contact` with an arguments object. -/
theorem unknown_tool_is_protocol_error_witness :
    callToolHandler sampleClient upstreamOk
        { name := "ghl_delete_contact", arguments := some [("contactId", .str "c1")] } =
      ({ content := [{
           type := "text"
           text := some "\x7b\n  \"error\": \"Unknown tool: ghl_delete_contact\"\n\x7d" }]
         isError := some true }, []) :=
  (unknown_tool_is_protocol_error sampleClient upstreamOk "ghl_delete_contact"
    (some [("contactId", .str "c1")]) (by decide)).2.1

/-- C9: `list_tools` returns the catalog itself; it has exactly 9 descriptors,
their names are pairwise distinct, and the names with their required-field
lists are as declared (`none`: the schema has no `required` key). -/
theorem list_tools_catalog :
    listToolsHandler = tools ∧
    listToolsHandler.length = 9 ∧
    (listToolsHandler.map Tool.name).Nodup ∧
    listToolsHandler.map (fun t => (t.name, t.inputSchema.required)) =
      [("ghl_get_contacts", none),
       ("ghl_get_contact", some ["contactId"]),
       ("ghl_create_contact", some ["email"]),
       ("ghl_update_contact", some ["contactId"]),
       ("ghl_search_conversations", none),
       ("ghl_get_messages", some ["conversationId"]),
       ("ghl_send_message", some ["conversationId", "message"]),
       ("ghl_get_location", none),
       ("ghl_search_opportunities", none)] :=
  ⟨rfl, rfl, by decide, rfl⟩

/-! ## Errors thrown while an endpoint is built -/

mutual
/-- A value that can be converted is converted. -/
theorem JsVal.toStr_ok_of_convertible : ∀ (v : JsVal),
    v.convertible = true → ∃ text, v.toStr = .ok text
  | .undefined, _ => ⟨_, rfl⟩
  | .null, _ => ⟨_, rfl⟩
  | .bool _, _ => ⟨_, rfl⟩
  | .num _, _ => ⟨_, rfl⟩
  | .str _, _ => ⟨_, rfl⟩
  | .arr xs, h => by
    obtain ⟨parts, hparts⟩ := JsVal.joinParts_ok_of_convertible xs
      (by simpa [JsVal.convertible] using h)
    exact ⟨String.intercalate "," parts, by simp only [JsVal.toStr, hparts]⟩
  | .obj fs, h => by
    simp only [JsVal.convertible, Bool.not_eq_true'] at h
    exact ⟨"[object Object]", by simp only [JsVal.toStr, h]; rfl⟩
termination_by structural v => v
/-- The same for the elements of an array. -/
theorem JsVal.joinParts_ok_of_convertible : ∀ (l : List JsVal),
    JsVal.allConvertible l = true → ∃ parts, JsVal.joinParts l = .ok parts
  | [], _ => ⟨_, rfl⟩
  | x :: rest, h => by
    simp only [JsVal.allConvertible, Bool.and_eq_true] at h
    obtain ⟨text, htext⟩ := JsVal.toStr_ok_of_convertible x h.1
    obtain ⟨parts, hparts⟩ := JsVal.joinParts_ok_of_convertible rest h.2
    exact ⟨(if x.isNullish then "" else text) :: parts,
      by simp only [JsVal.joinParts, htext, hparts]⟩
termination_by structural l => l
end

mutual
/-- A value that cannot be converted makes ToString throw the TypeError. -/
theorem JsVal.toStr_error_of_not_convertible : ∀ (v : JsVal),
    v.convertible = false → v.toStr = .error JsVal.cannotConvert
  | .undefined, h => by simp [JsVal.convertible] at h
  | .null, h => by simp [JsVal.convertible] at h
  | .bool _, h => by simp [JsVal.convertible] at h
  | .num _, h => by simp [JsVal.convertible] at h
  | .str _, h => by simp [JsVal.convertible] at h
  | .arr xs, h => by
    have hxs := JsVal.joinParts_error_of_not_convertible xs
      (by simpa [JsVal.convertible] using h)
    simp only [JsVal.toStr, hxs]
  | .obj fs, h => by
    simp only [JsVal.convertible, Bool.not_eq_false'] at h
    simp only [JsVal.toStr, h]
    rfl
termination_by structural v => v
/-- The same for the elements of an array. -/
theorem JsVal.joinParts_error_of_not_convertible : ∀ (l : List JsVal),
    JsVal.allConvertible l = false → JsVal.joinParts l = .error JsVal.cannotConvert
  | [], h => by simp [JsVal.allConvertible] at h
  | x :: rest, h => by
    simp only [JsVal.allConvertible, Bool.and_eq_false_iff] at h
    cases hx : x.convertible with
    | false =>
      simp only [JsVal.joinParts, JsVal.toStr_error_of_not_convertible x hx]
    | true =>
      obtain ⟨text, htext⟩ := JsVal.toStr_ok_of_convertible x hx
      have hrest : JsVal.allConvertible rest = false := by
        rcases h with h | h
        · rw [hx] at h
          cases h
        · exact h
      simp only [JsVal.joinParts, htext, JsVal.joinParts_error_of_not_convertible rest hrest]
termination_by structural l => l
end

/-- The pairs of the query string of a mapping whose values are converted to
`vals`. -/
theorem searchParamsList_ok (fs : Fields) (vals : List String)
    (h : fs.map (fun kv => kv.2.toStr) = vals.map Except.ok) :
    searchParamsList fs = .ok (List.zipWith (fun kv v => (kv.1, v)) fs vals) := by
  induction fs generalizing vals with
  | nil => rfl
  | cons kv rest ih =>
    cases vals with
    | nil => simp at h
    | cons v vs =>
      simp only [List.map_cons, List.cons.injEq] at h
      simp only [searchParamsList, h.1, ih vs h.2, List.zipWith_cons_cons]

/-- A mapping with a value that cannot be converted makes the constructor of
the query string throw. -/
theorem searchParamsList_throws (fs : Fields)
    (h : ∃ kv ∈ fs, kv.2.convertible = false) :
    searchParamsList fs = .error JsVal.cannotConvert := by
  induction fs with
  | nil => simp at h
  | cons kv rest ih =>
    cases hkv : kv.2.convertible with
    | false => simp only [searchParamsList, JsVal.toStr_error_of_not_convertible _ hkv]
    | true =>
      obtain ⟨text, htext⟩ := JsVal.toStr_ok_of_convertible _ hkv
      have hrest : ∃ kv2 ∈ rest, kv2.2.convertible = false := by
        obtain ⟨kv2, hmem, hc⟩ := h
        rcases List.mem_cons.mp hmem with heq | hmem
        · subst heq
          rw [hkv] at hc
          cases hc
        · exact ⟨kv2, hmem, hc⟩
      simp only [searchParamsList, htext, ih hrest]

/-- A mapping whose values can all be converted has a query string. -/
theorem searchParamsList_ok_of_convertible (fs : Fields)
    (h : ∀ v ∈ fs.map Prod.snd, v.convertible = true) :
    ∃ pairs, searchParamsList fs = .ok pairs := by
  induction fs with
  | nil => exact ⟨[], rfl⟩
  | cons kv rest ih =>
    obtain ⟨text, htext⟩ := JsVal.toStr_ok_of_convertible kv.2
      (h kv.2 (by simp))
    obtain ⟨pairs, hpairs⟩ := ih (fun v hv => h v (by
      simp only [List.map_cons, List.mem_cons]
      exact Or.inr hv))
    exact ⟨(kv.1, text) :: pairs, by simp only [searchParamsList, htext, hpairs]⟩

/-- The endpoint of a list operation is built when every option value can be
converted. -/
theorem listEndpoint_ok (name : String) (params : Option Fields)
    (h : ∀ v ∈ (params.getD []).map Prod.snd, v.convertible = true) :
    ∃ path, listEndpoint name params = .ok path := by
  obtain ⟨pairs, hpairs⟩ := searchParamsList_ok_of_convertible _ h
  simp only [listEndpoint, urlSearchParams, hpairs]
  exact ⟨_, rfl⟩

/-- Building the endpoint of a list operation throws when an option value
cannot be converted. -/
theorem listEndpoint_throws (name : String) (params : Option Fields)
    (h : ∃ v ∈ (params.getD []).map Prod.snd, v.convertible = false) :
    listEndpoint name params = .error JsVal.cannotConvert := by
  have h2 : ∃ kv ∈ params.getD [], kv.2.convertible = false := by
    obtain ⟨v, hv, hc⟩ := h
    obtain ⟨kv, hkv, rfl⟩ := List.mem_map.mp hv
    exact ⟨kv, hkv, hc⟩
  simp only [listEndpoint, urlSearchParams, searchParamsList_throws _ h2]

/-- The endpoint of an operation on an identifier is built when the identifier
can be converted. -/
theorem endpointOf_ok (pre : String) (value : JsVal)
    (h : ∀ v ∈ [value], v.convertible = true) :
    ∃ path, endpointOf pre value = .ok path := by
  obtain ⟨text, htext⟩ := JsVal.toStr_ok_of_convertible value (h value (by simp))
  exact ⟨pre ++ text, by simp only [endpointOf, htext]⟩

/-- Building the endpoint of an operation on an identifier throws when the
identifier cannot be converted. -/
theorem endpointOf_throws (pre : String) (value : JsVal)
    (h : ∃ v ∈ [value], v.convertible = false) :
    endpointOf pre value = .error JsVal.cannotConvert := by
  obtain ⟨v, hv, hc⟩ := h
  have hv2 : v = value := by simpa using hv
  subst hv2
  simp only [endpointOf, JsVal.toStr_error_of_not_convertible _ hc]

/-! ## Number of requests per invocation -/

/-- The identifier of a location operation is truthy when the argument or the
configured location is. -/
theorem JsVal.or_env_truthy (x : JsVal) (o : Option String) :
    (JsVal.or x (envVal o)).truthy = (x.truthy || envTruthy o) := by
  have henv : (envVal o).truthy = envTruthy o := by
    cases o <;> rfl
  unfold JsVal.or
  cases hx : x.truthy
  · simp [henv]
  · simp [hx]

/-- Every client call, by its inputs: inputs that fail validation give the
validation failure; `getAvailableTools` gives its list; every other call is
one request when every value its endpoint is built from can be converted to a
string, and throws the TypeError before any request otherwise. -/
theorem ClientCall.run_outcome (c : GoHighLevelMCPClient) (up : Upstream) (call : ClientCall) :
    (inputsPassValidation c call = false ∧
      ∃ message, call.run c up = validationFailure message) ∨
    (call = .getAvailableTools ∧ call.run c up = GoHighLevelMCPClient.getAvailableTools) ∨
    (inputsPassValidation c call = true ∧ call ≠ .getAvailableTools ∧
      (((∀ v ∈ interpolated c call, v.convertible = true) ∧
          ∃ method endpoint data, call.run c up = makeRequest c up method endpoint data) ∨
       ((∃ v ∈ interpolated c call, v.convertible = false) ∧
          call.run c up = thrown JsVal.cannotConvert))) := by
  have hreq : ∀ (method : String) (endpoint : Except String String) (data : JsVal)
      (vals : List JsVal),
      ((∀ v ∈ vals, v.convertible = true) → ∃ path, endpoint = .ok path) →
      ((∃ v ∈ vals, v.convertible = false) → endpoint = .error JsVal.cannotConvert) →
      (((∀ v ∈ vals, v.convertible = true) ∧
          ∃ m p d, requestAt c up method endpoint data = makeRequest c up m p d) ∨
       ((∃ v ∈ vals, v.convertible = false) ∧
          requestAt c up method endpoint data = thrown JsVal.cannotConvert)) := by
    intro method endpoint data vals hok hthrow
    by_cases hall : ∀ v ∈ vals, v.convertible = true
    · obtain ⟨path, hpath⟩ := hok hall
      subst hpath
      exact Or.inl ⟨hall, _, _, _, rfl⟩
    · have hex : ∃ v ∈ vals, v.convertible = false := by
        push_neg at hall
        obtain ⟨v, hv, hc⟩ := hall
        exact ⟨v, hv, by simpa using hc⟩
      rw [hthrow hex]
      exact Or.inr ⟨hex, rfl⟩
  have hdirect : ∀ (method path : String) (data : JsVal),
      (((∀ v ∈ ([] : List JsVal), v.convertible = true) ∧
          ∃ m p d, makeRequest c up method path data = makeRequest c up m p d) ∨
       ((∃ v ∈ ([] : List JsVal), v.convertible = false) ∧
          makeRequest c up method path data = thrown JsVal.cannotConvert)) :=
    fun method path data => Or.inl ⟨by simp, _, _, _, rfl⟩
  have hguard : ∀ (valid guard : Bool) (message : String) (o : Outcome) (callv : ClientCall)
      (vals : List JsVal),
      guard = !valid → callv ≠ .getAvailableTools →
      (((∀ v ∈ vals, v.convertible = true) ∧ ∃ m p d, o = makeRequest c up m p d) ∨
       ((∃ v ∈ vals, v.convertible = false) ∧ o = thrown JsVal.cannotConvert)) →
      (valid = false ∧
        ∃ msg, (if guard = true then validationFailure message else o) =
          validationFailure msg) ∨
      (callv = .getAvailableTools ∧
        (if guard = true then validationFailure message else o) =
          GoHighLevelMCPClient.getAvailableTools) ∨
      (valid = true ∧ callv ≠ .getAvailableTools ∧
        (((∀ v ∈ vals, v.convertible = true) ∧
            ∃ m p d, (if guard = true then validationFailure message else o) =
              makeRequest c up m p d) ∨
         ((∃ v ∈ vals, v.convertible = false) ∧
            (if guard = true then validationFailure message else o) =
              thrown JsVal.cannotConvert))) := by
    intro valid guard message o callv vals hg hne ho
    subst hg
    cases valid
    · exact Or.inl ⟨rfl, message, by simp⟩
    · exact Or.inr (Or.inr ⟨rfl, hne, by simpa using ho⟩)
  have hu : JsVal.undefined.truthy = false := rfl
  cases call <;>
    simp only [ClientCall.run, inputsPassValidation, interpolated,
      GoHighLevelMCPClient.getContacts,
      GoHighLevelMCPClient.getContact, GoHighLevelMCPClient.createContact,
      GoHighLevelMCPClient.updateContact, GoHighLevelMCPClient.upsertContact,
      GoHighLevelMCPClient.addTagsToContact, GoHighLevelMCPClient.removeTagsFromContact,
      GoHighLevelMCPClient.searchConversations, GoHighLevelMCPClient.getMessages,
      GoHighLevelMCPClient.sendMessage, GoHighLevelMCPClient.getCalendarEvents,
      GoHighLevelMCPClient.getAppointmentNotes, GoHighLevelMCPClient.searchOpportunities,
      GoHighLevelMCPClient.getOpportunity, GoHighLevelMCPClient.updateOpportunity,
      GoHighLevelMCPClient.getPipelines, GoHighLevelMCPClient.getOrderById,
      GoHighLevelMCPClient.listTransactions, GoHighLevelMCPClient.getLocation,
      GoHighLevelMCPClient.getCustomFields, GoHighLevelMCPClient.getAllTasks,
      GoHighLevelMCPClient.testConnection] <;>
    first
    | exact Or.inr (Or.inl ⟨rfl, rfl⟩)
    | exact Or.inr (Or.inl ⟨trivial, trivial⟩)
    | exact Or.inr (Or.inr ⟨trivial, by simp,
        hreq _ _ _ _ (listEndpoint_ok _ _) (listEndpoint_throws _ _)⟩)
    | exact Or.inr (Or.inr ⟨trivial, by simp, hdirect _ _ _⟩)
    | exact hguard _ _ _ _ _ _ (by simp [JsVal.or_env_truthy, hu]) (by simp)
        (hreq _ _ _ _ (endpointOf_ok _ _) (endpointOf_throws _ _))
    | exact hguard _ _ _ _ _ _ (by simp) (by simp) (hdirect _ _ _)

/-- C10 as stated fails: `getAvailableTools()` has no input to validate and
issues no request at all, whatever the upstream; and `getContact` with an
identifier that passes validation but cannot be converted to a string throws
before any request. -/
theorem getAvailableTools_issues_no_request :
    inputsPassValidation sampleClient .getAvailableTools = true ∧
    (ClientCall.run sampleClient upstreamOk .getAvailableTools).2 = [] ∧
    (ClientCall.run sampleClient upstreamOk .getAvailableTools).2.length ≠ 1 ∧
    inputsPassValidation sampleClient (.getContact unconvertible) = true ∧
    ClientCall.run sampleClient upstreamOk (.getContact unconvertible) =
      (.error "Cannot convert object to primitive value", []) :=
  ⟨rfl, rfl, by decide, rfl, rfl⟩

/-- C10, amended: every client operation issues at most one request per
invocation, whatever the upstream does with it (2xx, non-2xx, no response):
none when its inputs fail validation, none for `getAvailableTools`, none when
a value its endpoint is built from cannot be converted to a string (the
operation then throws a TypeError), and exactly one, resolving to a Result, in
every other case. -/
theorem at_most_one_request (c : GoHighLevelMCPClient) (up : Upstream) (call : ClientCall) :
    (call.run c up).2.length ≤ 1 ∧
    (inputsPassValidation c call = true → call ≠ .getAvailableTools →
      (∀ v ∈ interpolated c call, v.convertible = true) →
      ∃ r config, call.run c up = (.ok r, [config])) ∧
    (inputsPassValidation c call = true → call ≠ .getAvailableTools →
      (∃ v ∈ interpolated c call, v.convertible = false) →
      call.run c up = thrown JsVal.cannotConvert) ∧
    (inputsPassValidation c call = false →
      (call.run c up).2 = [] ∧ ∃ message, call.run c up = validationFailure message) ∧
    (call = .getAvailableTools → (call.run c up).2 = []) := by
  have hmk : ∀ method endpoint data, ∃ r config,
      makeRequest c up method endpoint data = (.ok r, [config]) := by
    intro method endpoint data
    exact ⟨_, _, Prod.ext (makeRequest_result c up method endpoint data)
      (makeRequest_trace c up method endpoint data)⟩
  rcases ClientCall.run_outcome c up call with
    ⟨hv, message, h⟩ | ⟨hc, h⟩ | ⟨hv, hne, ⟨hall, method, endpoint, data, h⟩ | ⟨hex, h⟩⟩
  · refine ⟨by rw [h]; simp [validationFailure], ?_, ?_, ?_, ?_⟩
    · intro hv2
      rw [hv] at hv2
      cases hv2
    · intro hv2
      rw [hv] at hv2
      cases hv2
    · intro _
      exact ⟨by rw [h]; rfl, message, h⟩
    · intro _
      rw [h]
      rfl
  · refine ⟨by rw [h]; simp [GoHighLevelMCPClient.getAvailableTools], ?_, ?_, ?_, ?_⟩
    · intro _ hne
      exact absurd hc hne
    · intro _ hne
      exact absurd hc hne
    · intro hv
      subst hc
      simp [inputsPassValidation] at hv
    · intro _
      rw [h]
      rfl
  · obtain ⟨r, config, hrc⟩ := hmk method endpoint data
    refine ⟨by rw [h, hrc]; simp, ?_, ?_, ?_, ?_⟩
    · intro _ _ _
      exact ⟨r, config, by rw [h, hrc]⟩
    · intro _ _ hex
      obtain ⟨v, hmem, hcv⟩ := hex
      rw [hall v hmem] at hcv
      cases hcv
    · intro hv2
      rw [hv] at hv2
      cases hv2
    · intro hc
      exact absurd hc hne
  · refine ⟨by rw [h]; simp [thrown], ?_, ?_, ?_, ?_⟩
    · intro _ _ hall
      obtain ⟨v, hmem, hcv⟩ := hex
      rw [hall v hmem] at hcv
      cases hcv
    · intro _ _ _
      exact h
    · intro hv2
      rw [hv] at hv2
      cases hv2
    · intro hc
      exact absurd hc hne

/-- C10, amended, at `getContacts(\x7b limit: 5 \x7d)` against an upstream that
answers 404, at `updateContact` without a body, and at `getContact` with an
identifier that cannot be converted. -/
theorem at_most_one_request_witness :
    (∃ r config, ClientCall.run sampleClient upstreamNotFound
      (.getContacts (some [("limit", .num "5")])) = (.ok r, [config])) ∧
    (ClientCall.run sampleClient upstreamNotFound
      (.updateContact (.str "c1") .undefined)).2 = [] ∧
    ClientCall.run sampleClient upstreamNotFound (.getContact unconvertible) =
      (.error "Cannot convert object to primitive value", []) :=
  ⟨(at_most_one_request sampleClient upstreamNotFound
      (.getContacts (some [("limit", .num "5")]))).2.1 rfl (by simp) (by decide),
   ((at_most_one_request sampleClient upstreamNotFound
      (.updateContact (.str "c1") .undefined)).2.2.2.1 rfl).1,
   (at_most_one_request sampleClient upstreamNotFound
      (.getContact unconvertible)).2.2.1 rfl (by simp) (by decide)⟩

/-! ## The URL of a list operation -/

/-- Joining never shortens the accumulated string. -/
theorem intercalate_go_length (acc sep : String) (l : List String) :
    acc.length ≤ (String.intercalate.go acc sep l).length := by
  induction l generalizing acc with
  | nil => simp [String.intercalate.go]
  | cons a rest ih =>
    simp only [String.intercalate.go]
    have h := ih (acc ++ sep ++ a)
    simp only [String.length_append] at h
    omega

/-- The query string of at least one pair is not empty: every pair contributes
its `=`. -/
theorem queryString_ne_empty (key value : String) (rest : List String) :
    String.intercalate "&" ((key ++ "=" ++ value) :: rest) ≠ "" := by
  intro h
  have hlen : (String.intercalate "&" ((key ++ "=" ++ value) :: rest)).length = 0 := by
    rw [h]
    rfl
  simp only [String.intercalate] at hlen
  have h2 := intercalate_go_length (key ++ "=" ++ value) "&" rest
  simp only [String.length_append] at h2
  have h3 : "=".length = 1 := rfl
  omega

/-- The endpoint of a list operation, by the options. -/
theorem listEndpoint_eq (name : String) :
    listEndpoint name none = .ok name ∧
    listEndpoint name (some []) = .ok name ∧
    (∀ (fs : Fields) (vals : List String), fs ≠ [] →
      fs.map (fun kv => kv.2.toStr) = vals.map Except.ok →
      listEndpoint name (some fs) = .ok (name ++ "?" ++ String.intercalate "&"
        (List.zipWith (fun kv v => urlencode kv.1 ++ "=" ++ urlencode v) fs vals))) := by
  refine ⟨rfl, rfl, ?_⟩
  intro fs vals hfs hvals
  have hpairs := searchParamsList_ok fs vals hvals
  simp only [listEndpoint, urlSearchParams, Option.getD_some, hpairs, List.map_zipWith]
  cases fs with
  | nil => exact absurd rfl hfs
  | cons kv rest =>
    cases vals with
    | nil => simp at hvals
    | cons v vs =>
      simp only [List.zipWith_cons_cons]
      have hne := queryString_ne_empty (urlencode kv.1) (urlencode v)
        (List.zipWith (fun kv v => urlencode kv.1 ++ "=" ++ urlencode v) rest vs)
      simp [hne]

/-- C11 as stated fails: for the options mapping `\x7b limit: \x7b toString: 1 \x7d \x7d`
the query string cannot be built; `getContacts` throws a TypeError and no
request goes anywhere. -/
theorem list_operation_throws_on_unconvertible_option :
    [("limit", unconvertible)] ≠ ([] : Fields) ∧
    sampleClient.getContacts upstreamOk (some [("limit", unconvertible)]) =
      (.error "Cannot convert object to primitive value", []) :=
  ⟨List.cons_ne_nil _ _, rfl⟩

/-- C11, amended: each list operation (`getContacts`, `searchConversations`,
`getCalendarEvents`, `searchOpportunities`, `listTransactions`), for an options
mapping whose values can all be converted to strings, issues one GET request
whose URL is the configured base URL followed by the endpoint.  The endpoint
is the fixed name of the operation alone, which has no `?`, when the options
are omitted or empty; otherwise it is the name, `?` and the pairs `key=value`
joined with `&`, the value being ToString of the option value, key and value
serialised as application/x-www-form-urlencoded (ASCII letters, digits and
`*-._` unchanged, a space as `+`, any other character as the `%XX` of its UTF-8
bytes).  When an option value cannot be converted the operation throws and
issues no request. -/
theorem list_operation_url (c : GoHighLevelMCPClient) (up : Upstream)
    (op : GoHighLevelMCPClient → Upstream → Option Fields → Outcome) (name : String)
    (hop : (op, name) ∈
      [(GoHighLevelMCPClient.getContacts, "contacts_get-contacts"),
       (GoHighLevelMCPClient.searchConversations, "conversations_search-conversation"),
       (GoHighLevelMCPClient.getCalendarEvents, "calendars_get-calendar-events"),
       (GoHighLevelMCPClient.searchOpportunities, "opportunities_search-opportunity"),
       (GoHighLevelMCPClient.listTransactions, "payments_list-transactions")]) :
    op c up none = makeRequest c up "GET" name .null ∧
    op c up (some []) = makeRequest c up "GET" name .null ∧
    (∀ (fs : Fields) (vals : List String), fs ≠ [] →
      fs.map (fun kv => kv.2.toStr) = vals.map Except.ok →
      op c up (some fs) = makeRequest c up "GET"
        (name ++ "?" ++ String.intercalate "&"
          (List.zipWith (fun kv v => urlencode kv.1 ++ "=" ++ urlencode v) fs vals)) .null) ∧
    (∀ fs : Fields, (∃ kv ∈ fs, kv.2.convertible = false) →
      op c up (some fs) = thrown JsVal.cannotConvert) ∧
    (∀ endpoint : String,
      (makeRequest c up "GET" endpoint .null).2 = [requestConfig c "GET" endpoint .null] ∧
      (requestConfig c "GET" endpoint .null).url = c.mcpUrl ++ endpoint ∧
      (requestConfig c "GET" endpoint .null).method = "GET") ∧
    '?' ∉ name.data ∧
    (∀ s : String, urlencode s = String.join (s.toList.map urlencodeChar)) ∧
    (∀ ch : Char,
      ch.isAlphanum = true ∨ ch = '*' ∨ ch = '-' ∨ ch = '.' ∨ ch = '_' →
      urlencodeChar ch = String.singleton ch) ∧
    urlencodeChar ' ' = "+" ∧
    (∀ ch : Char, ch.toNat < 128 →
      ¬ (ch.isAlphanum = true ∨ ch = '*' ∨ ch = '-' ∨ ch = '.' ∨ ch = '_') → ch ≠ ' ' →
      urlencodeChar ch = String.mk ['%', hexUpper (ch.toNat / 16), hexUpper (ch.toNat % 16)]) ∧
    (List.range 16).map hexUpper = "0123456789ABCDEF".toList ∧
    urlencode "é€😀" = "%C3%A9%E2%82%AC%F0%9F%98%80" ∧
    (∀ s : String, (JsVal.str s).toStr = .ok s) ∧
    (∀ repr : String, (JsVal.num repr).toStr = .ok repr) ∧
    (JsVal.bool true).toStr = .ok "true" ∧ (JsVal.bool false).toStr = .ok "false" ∧
    JsVal.null.toStr = .ok "null" ∧ JsVal.undefined.toStr = .ok "undefined" ∧
    (∀ v : JsVal, (∃ text, v.toStr = .ok text) ↔ v.convertible = true) := by
  have hconv : ∀ v : JsVal, (∃ text, v.toStr = .ok text) ↔ v.convertible = true := by
    intro v
    constructor
    · intro h
      cases hv : v.convertible with
      | true => rfl
      | false =>
        obtain ⟨text, htext⟩ := h
        rw [JsVal.toStr_error_of_not_convertible v hv] at htext
        cases htext
    · exact JsVal.toStr_ok_of_convertible v
  have hunres : ∀ ch : Char,
      ch.isAlphanum = true ∨ ch = '*' ∨ ch = '-' ∨ ch = '.' ∨ ch = '_' →
      urlencodeChar ch = String.singleton ch := by
    intro ch h
    have h2 : (ch.isAlphanum || decide (ch = '*') || decide (ch = '-') ||
        decide (ch = '.') || decide (ch = '_')) = true := by
      simpa [or_assoc] using h
    simp only [urlencodeChar, h2, if_true]
  have hesc : ∀ ch : Char, ch.toNat < 128 →
      ¬ (ch.isAlphanum = true ∨ ch = '*' ∨ ch = '-' ∨ ch = '.' ∨ ch = '_') → ch ≠ ' ' →
      urlencodeChar ch =
        String.mk ['%', hexUpper (ch.toNat / 16), hexUpper (ch.toNat % 16)] := by
    intro ch hlt h hsp
    have h2 : ¬ ((ch.isAlphanum || decide (ch = '*') || decide (ch = '-') ||
        decide (ch = '.') || decide (ch = '_')) = true) := by
      simpa [or_assoc] using h
    simp only [urlencodeChar, h2, if_false, hsp, utf8Bytes, hlt, if_true, List.map_cons,
      List.map_nil, String.join]
    rfl
  have hrest : ∀ endpoint : String,
      (makeRequest c up "GET" endpoint .null).2 = [requestConfig c "GET" endpoint .null] ∧
      (requestConfig c "GET" endpoint .null).url = c.mcpUrl ++ endpoint ∧
      (requestConfig c "GET" endpoint .null).method = "GET" :=
    fun endpoint => ⟨makeRequest_trace _ _ _ _ _, rfl, rfl⟩
  have hlist : ∀ (nm : String) (params : Option Fields),
      (requestAt c up "GET" (listEndpoint nm none) .null = makeRequest c up "GET" nm .null) ∧
      (requestAt c up "GET" (listEndpoint nm (some [])) .null =
        makeRequest c up "GET" nm .null) ∧
      (∀ (fs : Fields) (vals : List String), fs ≠ [] →
        fs.map (fun kv => kv.2.toStr) = vals.map Except.ok →
        requestAt c up "GET" (listEndpoint nm (some fs)) .null = makeRequest c up "GET"
          (nm ++ "?" ++ String.intercalate "&"
            (List.zipWith (fun kv v => urlencode kv.1 ++ "=" ++ urlencode v) fs vals)) .null) ∧
      (∀ fs : Fields, (∃ kv ∈ fs, kv.2.convertible = false) →
        requestAt c up "GET" (listEndpoint nm (some fs)) .null = thrown JsVal.cannotConvert) := by
    intro nm _
    refine ⟨rfl, rfl, ?_, ?_⟩
    · intro fs vals hfs hvals
      rw [(listEndpoint_eq nm).2.2 fs vals hfs hvals]
      rfl
    · intro fs hex
      have h2 : ∃ v ∈ ((some fs).getD []).map Prod.snd, v.convertible = false := by
        obtain ⟨kv, hkv, hc⟩ := hex
        exact ⟨kv.2, List.mem_map.mpr ⟨kv, hkv, rfl⟩, hc⟩
      rw [listEndpoint_throws nm (some fs) h2]
      rfl
  simp only [List.mem_cons, List.mem_singleton, List.not_mem_nil, or_false, Prod.mk.injEq] at hop
  rcases hop with ⟨h1, h2⟩ | ⟨h1, h2⟩ | ⟨h1, h2⟩ | ⟨h1, h2⟩ | ⟨h1, h2⟩ <;> subst h1 <;> subst h2 <;>
    exact ⟨(hlist _ none).1, (hlist _ none).2.1, (hlist _ none).2.2.1, (hlist _ none).2.2.2,
      hrest, by decide, fun _ => rfl, hunres, rfl, hesc, by decide, by decide,
      fun _ => rfl, fun _ => rfl, rfl, rfl, rfl, rfl, hconv⟩

/-- C11, amended, at the input of the spec, `getContacts(\x7b limit: 5 \x7d)`,
which requests the base URL followed by `contacts_get-contacts?limit=5`, and at
options with a space in a key, reserved and non-ASCII characters, the number
`1e21`, an array and an object. -/
theorem list_operation_url_witness :
    (sampleClient.getContacts upstreamOk (some [("limit", .num "5")])).2.map AxiosConfig.url =
      ["https://services.leadconnectorhq.com/mcp/contacts_get-contacts?limit=5"] ∧
    (sampleClient.getContacts upstreamOk (some
        [("page size", .num "5"), ("q", .str "a b&c=é€~*-._"), ("n", .num "1e+21"),
         ("tags", .arr [.str "x", .null, .num "7", .bool true]), ("o", .obj [])])).2.map
        AxiosConfig.url =
      ["https://services.leadconnectorhq.com/mcp/contacts_get-contacts?page+size=5" ++
        "&q=a+b%26c%3D%C3%A9%E2%82%AC%7E*-._&n=1e%2B21&tags=x%2C%2C7%2Ctrue" ++
        "&o=%5Bobject+Object%5D"] :=
  ⟨congrArg (fun o : Outcome => o.2.map AxiosConfig.url)
    ((list_operation_url sampleClient upstreamOk GoHighLevelMCPClient.getContacts
      "contacts_get-contacts" (List.mem_cons_self _ _)).2.2.1
      [("limit", .num "5")] ["5"] (List.cons_ne_nil _ _) rfl),
   congrArg (fun o : Outcome => o.2.map AxiosConfig.url)
    ((list_operation_url sampleClient upstreamOk GoHighLevelMCPClient.getContacts
      "contacts_get-contacts" (List.mem_cons_self _ _)).2.2.1
      [("page size", .num "5"), ("q", .str "a b&c=é€~*-._"), ("n", .num "1e+21"),
       ("tags", .arr [.str "x", .null, .num "7", .bool true]), ("o", .obj [])]
      ["5", "a b&c=é€~*-._", "1e+21", "x,,7,true", "[object Object]"]
      (List.cons_ne_nil _ _) rfl)⟩

/-! ## Construction of the client and the command line -/

/-- C12: the constructor throws exactly when the integration token is unset or
empty; a missing location identifier never makes it throw; and when it throws,
`main` exits with code 1 for every command line, the empty one included,
without issuing a request. -/
theorem construction_fails_iff_token_absent (env : Env) (up : Upstream) (args : List String) :
    (GoHighLevelMCPClient.new env =
        .error "GHL_PRIVATE_INTEGRATION_TOKEN is required. Please check your .env file." ↔
      (env.GHL_PRIVATE_INTEGRATION_TOKEN = none ∨ env.GHL_PRIVATE_INTEGRATION_TOKEN = some "")) ∧
    ((∃ client, GoHighLevelMCPClient.new env = .ok client) ↔
      ¬ (env.GHL_PRIVATE_INTEGRATION_TOKEN = none ∨
         env.GHL_PRIVATE_INTEGRATION_TOKEN = some "")) ∧
    (∀ token : String, token ≠ "" →
      ∃ client, GoHighLevelMCPClient.new
          { env with GHL_PRIVATE_INTEGRATION_TOKEN := some token, GHL_LOCATION_ID := none } =
        .ok client ∧ client.locationId = none) ∧
    (∀ message, GoHighLevelMCPClient.new env = .error message →
      main env up args = (.exit 1, [])) := by
  refine ⟨?_, ?_, ?_, ?_⟩
  · cases h : env.GHL_PRIVATE_INTEGRATION_TOKEN with
    | none => simp [GoHighLevelMCPClient.new, h, envTruthy]
    | some t =>
      by_cases ht : t = ""
      · simp [GoHighLevelMCPClient.new, h, envTruthy, ht]
      · simp [GoHighLevelMCPClient.new, h, envTruthy, ht]
  · cases h : env.GHL_PRIVATE_INTEGRATION_TOKEN with
    | none => simp [GoHighLevelMCPClient.new, h, envTruthy]
    | some t =>
      by_cases ht : t = ""
      · simp [GoHighLevelMCPClient.new, h, envTruthy, ht]
      · simp [GoHighLevelMCPClient.new, h, envTruthy, ht]
  · intro token ht
    simp [GoHighLevelMCPClient.new, envTruthy, ht]
  · intro message h
    simp [main, h]

/-- C12, at an environment with a location and an empty token, on the empty
command line and on `contacts`; and at an environment with a token and no
location. -/
theorem construction_fails_iff_token_absent_witness :
    main envEmptyToken upstreamOk [] = (.exit 1, []) ∧
    main envEmptyToken upstreamOk ["contacts"] = (.exit 1, []) ∧
    (∃ client, GoHighLevelMCPClient.new envTokenOnly = .ok client ∧ client.locationId = none) :=
  ⟨(construction_fails_iff_token_absent envEmptyToken upstreamOk []).2.2.2 _ rfl,
   (construction_fails_iff_token_absent envEmptyToken upstreamOk ["contacts"]).2.2.2 _ rfl,
   (construction_fails_iff_token_absent envTokenOnly upstreamOk []).2.2.1 "tok" (by decide)⟩

/-! ## The catalog and the dispatch switch -/

/-- A name outside the catalog reaches the `default` of the switch. -/
theorem dispatch_undeclared (name : String) (args : Option Fields) (hname : name ∉ toolNames) :
    dispatch name args = .error ("Unknown tool: " ++ name) := by
  simp only [toolNames, tools, List.map, List.mem_cons, List.mem_singleton,
    List.not_mem_nil, or_false, not_or] at hname
  obtain ⟨h1, h2, h3, h4, h5, h6, h7, h8, h9⟩ := hname
  unfold dispatch
  split <;> first | rfl | contradiction

/-- C13: the names declared in the catalog are exactly the names the dispatch
switch handles: a declared name, called with an arguments object, reaches one
client operation (the one listed), and a name reaches the `default` of the
switch exactly when it is not declared. -/
theorem catalog_matches_dispatch (name : String) :
    (name ∈ toolNames ↔ ∀ fs : Fields, ∃ call, dispatch name (some fs) = .ok call) ∧
    (name ∉ toolNames ↔ ∀ args, dispatch name args = .error ("Unknown tool: " ++ name)) ∧
    (∀ fs : Fields,
      dispatch "ghl_get_contacts" (some fs) = .ok (.getContacts (some fs)) ∧
      dispatch "ghl_get_contact" (some fs) = .ok (.getContact (fs.get "contactId")) ∧
      dispatch "ghl_create_contact" (some fs) = .ok (.createContact (.obj fs)) ∧
      dispatch "ghl_update_contact" (some fs) =
        .ok (.updateContact (fs.get "contactId") (.obj fs)) ∧
      dispatch "ghl_search_conversations" (some fs) = .ok (.searchConversations (some fs)) ∧
      dispatch "ghl_get_messages" (some fs) = .ok (.getMessages (fs.get "conversationId")) ∧
      dispatch "ghl_send_message" (some fs) =
        .ok (.sendMessage (fs.get "conversationId") (fs.get "message")) ∧
      dispatch "ghl_get_location" (some fs) = .ok (.getLocation (fs.get "locationId")) ∧
      dispatch "ghl_search_opportunities" (some fs) = .ok (.searchOpportunities (some fs))) := by
  have hdecl : name ∈ toolNames → ∀ fs : Fields, ∃ call, dispatch name (some fs) = .ok call := by
    intro h fs
    obtain ⟨call, hcall, _⟩ := callTool_declared_with_arguments sampleClient upstreamOk name fs h
    exact ⟨call, hcall⟩
  refine ⟨⟨hdecl, ?_⟩, ⟨fun h args => dispatch_undeclared name args h, ?_⟩,
    fun fs => ⟨rfl, rfl, rfl, rfl, rfl, rfl, rfl, rfl, rfl⟩⟩
  · intro h
    by_contra hn
    obtain ⟨call, hcall⟩ := h []
    rw [dispatch_undeclared name _ hn] at hcall
    simp at hcall
  · intro h hn
    obtain ⟨call, hcall⟩ := hdecl hn []
    rw [h] at hcall
    simp at hcall

/-! ## Schema-required fields and client validation -/

/-- A property that the arguments object does not have reads as `undefined`. -/
theorem Fields.get_of_lookup_none (fs : Fields) (key : String) (h : fs.lookup key = none) :
    fs.get key = .undefined := by
  simp [Fields.get, h]

/-- C14 as stated fails: `email` is in the required list of `ghl_create_contact`,
the arguments object omits it, and the request is nevertheless sent (one POST),
the Result being `success: true` on a 200 answer. -/
theorem create_contact_without_email_is_sent :
    (tools.map fun t => (t.name, t.inputSchema.required)).lookup "ghl_create_contact" =
      some (some ["email"]) ∧
    List.lookup "email" [("firstName", JsVal.str "Ada")] = none ∧
    callToolHandler sampleClient upstreamOk
        { name := "ghl_create_contact", arguments := some [("firstName", .str "Ada")] } =
      ({ content := [{
           type := "text"
           text := jsonStringify (Result.toJs
             { success := true, data := some contactsBody, error := none, status := some 200 }) }]
         isError := none },
       [requestConfig sampleClient "POST" "contacts_create-contact"
         (.obj [("firstName", .str "Ada")])]) :=
  ⟨rfl, rfl, rfl⟩

/-- C14, amended: for `ghl_get_contact`, `ghl_update_contact`, `ghl_get_messages`
and `ghl_send_message`, a `call_tool` request whose arguments object omits a
field of the required list issues no request and answers with the client
Result `success: false` of the validation failure.  For `ghl_create_contact`
the client checks only that a contact body is present: every request with an
arguments object, with or without `email`, passes validation and is sent as
one POST. -/
theorem required_field_validation (c : GoHighLevelMCPClient) (up : Upstream) (fs : Fields) :
    (fs.lookup "contactId" = none →
      callToolHandler c up { name := "ghl_get_contact", arguments := some fs } =
        ({ content := [{
             type := "text"
             text := jsonStringify (Result.toJs
               { success := false, error := some (.str "Contact ID is required") }) }]
           isError := none }, [])) ∧
    (fs.lookup "contactId" = none →
      callToolHandler c up { name := "ghl_update_contact", arguments := some fs } =
        ({ content := [{
             type := "text"
             text := jsonStringify (Result.toJs
               { success := false, error := some (.str "Contact ID and data are required") }) }]
           isError := none }, [])) ∧
    (fs.lookup "conversationId" = none →
      callToolHandler c up { name := "ghl_get_messages", arguments := some fs } =
        ({ content := [{
             type := "text"
             text := jsonStringify (Result.toJs
               { success := false, error := some (.str "Conversation ID is required") }) }]
           isError := none }, [])) ∧
    (fs.lookup "conversationId" = none ∨ fs.lookup "message" = none →
      callToolHandler c up { name := "ghl_send_message", arguments := some fs } =
        ({ content := [{
             type := "text"
             text := jsonStringify (Result.toJs
               { success := false
                 error := some (.str "Conversation ID and message are required") }) }]
           isError := none }, [])) ∧
    (dispatch "ghl_create_contact" (some fs) = .ok (.createContact (.obj fs)) ∧
      ClientCall.run c up (.createContact (.obj fs)) =
        makeRequest c up "POST" "contacts_create-contact" (.obj fs) ∧
      (callToolHandler c up { name := "ghl_create_contact", arguments := some fs }).2 =
        [requestConfig c "POST" "contacts_create-contact" (.obj fs)]) := by
  have hu : JsVal.undefined.truthy = false := rfl
  refine ⟨?_, ?_, ?_, ?_, ?_, ?_, ?_⟩
  · intro h
    have hg := Fields.get_of_lookup_none fs "contactId" h
    simp [callToolHandler, dispatch, readArg, hg, ClientCall.run,
      GoHighLevelMCPClient.getContact, hu, validationFailure, bind, Except.bind]
  · intro h
    have hg := Fields.get_of_lookup_none fs "contactId" h
    simp [callToolHandler, dispatch, readArg, hg, ClientCall.run,
      GoHighLevelMCPClient.updateContact, hu, validationFailure, bind, Except.bind]
  · intro h
    have hg := Fields.get_of_lookup_none fs "conversationId" h
    simp [callToolHandler, dispatch, readArg, hg, ClientCall.run,
      GoHighLevelMCPClient.getMessages, hu, validationFailure, bind, Except.bind]
  · intro h
    rcases h with h | h
    · have hg := Fields.get_of_lookup_none fs "conversationId" h
      simp [callToolHandler, dispatch, readArg, hg, ClientCall.run,
        GoHighLevelMCPClient.sendMessage, hu, validationFailure, bind, Except.bind]
    · have hg := Fields.get_of_lookup_none fs "message" h
      simp [callToolHandler, dispatch, readArg, hg, ClientCall.run,
        GoHighLevelMCPClient.sendMessage, hu, validationFailure, bind, Except.bind]
  · rfl
  · simp [ClientCall.run, GoHighLevelMCPClient.createContact, JsVal.truthy]
  · obtain ⟨r, hmk⟩ : ∃ r, makeRequest c up "POST" "contacts_create-contact" (.obj fs) =
        (.ok r, [requestConfig c "POST" "contacts_create-contact" (.obj fs)]) :=
      ⟨_, Prod.ext (makeRequest_result c up "POST" "contacts_create-contact" (.obj fs))
        (makeRequest_trace c up "POST" "contacts_create-contact" (.obj fs))⟩
    simp only [callToolHandler, dispatch, argsVal, ClientCall.run,
      GoHighLevelMCPClient.createContact, JsVal.truthy, Bool.not_true, Bool.false_eq_true,
      if_false]
    rw [hmk]

/-- C14, amended, at `ghl_get_contact` and `ghl_send_message` with an arguments
object that omits the required field. -/
theorem required_field_validation_witness :
    (callToolHandler sampleClient upstreamOk
        { name := "ghl_get_contact", arguments := some [("id", .str "c1")] }).2 = [] ∧
    (callToolHandler sampleClient upstreamOk
        { name := "ghl_send_message",
          arguments := some [("conversationId", .str "v1")] }).2 = [] :=
  ⟨congrArg Prod.snd ((required_field_validation sampleClient upstreamOk
      [("id", .str "c1")]).1 rfl),
   congrArg Prod.snd ((required_field_validation sampleClient upstreamOk
      [("conversationId", .str "v1")]).2.2.2.1 (Or.inr rfl))⟩

end GHL
